import Mathlib

/-!
# libjr_visca: frame extraction and message codec

A shallow embedding of `src/jr_visca.c` and theorems about it.

Conventions of the embedding.

* A byte (`uint8_t`) is a `Nat`; where the C code converts an `int` back to `uint8_t` the
  embedding reduces modulo `256`.
* An `int16_t` is an `Int`; the conversion of an `int` to `int16_t` is `toInt16`.
* A C buffer `(data, dataLength)` is the list of its `dataLength` bytes.
* A fixed-capacity array (`frame.data`, `signature`, `signatureMask`, `maskedFrame`) is a list
  whose length is the capacity; a pointer into it is a list together with an offset.
* `JR_VISCA_MAX_FRAME_DATA_LENGTH` and the type `jr_viscaFrame` are not declared in the
  given sources: the former is the parameter `MAX` of every definition that uses it, the latter
  is the record of the four fields the code accesses.
* An automatic array without initialiser (`maskedFrame`) starts with arbitrary content, which is
  a parameter (`scratch`, one content per loop iteration).
-/

namespace JrVisca

/-- The fields of `jr_viscaFrame` that `jr_visca.c` reads and writes. -/
structure jr_viscaFrame where
  sender : Nat
  receiver : Nat
  data : List Nat
  dataLength : Nat
  deriving DecidableEq, Repr

/-- The `struct jr_viscaPanTiltPositionInqResponseParameters` variant of
`union jr_viscaMessageParameters`, the only variant `jr_visca.c` accesses. -/
structure jr_viscaMessageParameters where
  panPosition : Int
  tiltPosition : Int
  deriving DecidableEq, Repr

/-- The parameter handlers a table entry can point to (`handleParameters`). -/
inductive jr_viscaHandler where
  | NULL
  | handlePanTiltPositionInqResponseParameters
  deriving DecidableEq, Repr

/-- The record `jr_viscaMessageDefinition`. -/
structure jr_viscaMessageDefinition where
  signature : List Nat
  signatureMask : List Nat
  signatureLength : Nat
  commandType : Int
  handleParameters : jr_viscaHandler
  deriving DecidableEq, Repr

def JR_VISCA_MESSAGE_PAN_TILT_POSITION_INQ : Int := 1
def JR_VISCA_MESSAGE_PAN_TILT_POSITION_INQ_RESPONSE : Int := 2
def JR_VISCA_MESSAGE_ACK : Int := 7
def JR_VISCA_MESSAGE_COMPLETION : Int := 8
def JR_VISCA_MESSAGE_ERROR_REPLY : Int := 0x9601
def JR_VISCA_MESSAGE_ZOOM_POSITION_INQ : Int := 0x947

/-- The `for` loop of `jr_viscaDataToFrame`: starting at index `i`, the index of the first
`0xff` byte of the remaining bytes, or the index one past the end when there is none. -/
def scanTerminator : List Nat → Nat → Nat
  | [], i => i
  | b :: rest, i => if b = 0xff then i else scanTerminator rest (i + 1)

/-- The call `memcpy(dest, src, n)`: the first `n` bytes of `dest` become those of `src`. -/
def memcpy : List Nat → List Nat → Nat → List Nat
  | _ :: ds, s :: ss, n + 1 => s :: memcpy ds ss n
  | dest, _, _ => dest

/-- The test `memcmp(a, b, n) == 0`: the first `n` bytes agree. -/
def memcmpEq (a b : List Nat) (n : Nat) : Bool :=
  a.take n == b.take n

/-- The function `jr_viscaDataToFrame`: the return value and the frame after the call. -/
def jr_viscaDataToFrame (MAX : Nat) (data : List Nat) (frame : jr_viscaFrame) :
    Int × jr_viscaFrame :=
  let terminatorIndex := scanTerminator data 0
  if ¬ (terminatorIndex < data.length) then (0, frame)
  else if (terminatorIndex : Int) > (MAX : Int) - 1 then (-1, frame)
  else if terminatorIndex = 0 then (-1, frame)
  else
    let frame1 := { frame with sender := (data.getD 0 0 >>> 4) &&& 0x7 }
    let frame2 := { frame1 with receiver := data.getD 0 0 &&& 0x7 }
    let frame3 := { frame2 with data := memcpy frame2.data (data.drop 1) (terminatorIndex - 1) }
    let frame4 := { frame3 with dataLength := terminatorIndex - 1 }
    ((terminatorIndex : Int) + 1, frame4)

/-- Conversion of an `int` to `int16_t` (two's complement, modulo `2^16`). -/
def toInt16 (x : Int) : Int :=
  (x + 32768) % 65536 - 32768

/-- The function `_jr_viscaRead16FromBuffer`, called with the pointer `mem + buffer`. -/
def _jr_viscaRead16FromBuffer (mem : List Nat) (buffer : Nat) : Int :=
  let result : Int := 0
  let result := toInt16 (result + ((mem.getD (buffer + 0) 0 &&& 0xf) * 0x1000 : Nat))
  let result := toInt16 (result + ((mem.getD (buffer + 1) 0 &&& 0xf) * 0x100 : Nat))
  let result := toInt16 (result + ((mem.getD (buffer + 2) 0 &&& 0xf) * 0x10 : Nat))
  let result := toInt16 (result + ((mem.getD (buffer + 3) 0 &&& 0xf : Nat)))
  result

/-- The statement `buffer[k] |= x` on the byte at `mem + k`, for an `int` value `x`. -/
def orByte (mem : List Nat) (k : Nat) (x : Int) : List Nat :=
  mem.set k ((mem.getD k 0 ||| x.toNat) % 256)

/-- The function `_jr_viscaWrite16ToBuffer`, called with the pointer `mem + buffer`:
the memory after the call. -/
def _jr_viscaWrite16ToBuffer (value : Int) (mem : List Nat) (buffer : Nat) : List Nat :=
  let mem := orByte mem (buffer + 0) (Int.land (value >>> (12 : Nat)) 0xf)
  let mem := orByte mem (buffer + 1) (Int.land (value >>> (8 : Nat)) 0xf)
  let mem := orByte mem (buffer + 2) (Int.land (value >>> (4 : Nat)) 0xf)
  let mem := orByte mem (buffer + 3) (Int.land value 0xf)
  mem

/-- The function `jr_visca_handlePanTiltPositionInqResponseParameters`: the frame and the
parameters after the call. -/
def jr_visca_handlePanTiltPositionInqResponseParameters (frame : jr_viscaFrame)
    (messageParameters : jr_viscaMessageParameters) (isDecodingFrame : Bool) :
    jr_viscaFrame × jr_viscaMessageParameters :=
  if isDecodingFrame then
    let messageParameters :=
      { messageParameters with panPosition := _jr_viscaRead16FromBuffer frame.data 1 }
    let messageParameters :=
      { messageParameters with tiltPosition := _jr_viscaRead16FromBuffer frame.data 5 }
    (frame, messageParameters)
  else
    let frame :=
      { frame with data := _jr_viscaWrite16ToBuffer messageParameters.panPosition frame.data 1 }
    let frame :=
      { frame with data := _jr_viscaWrite16ToBuffer messageParameters.tiltPosition frame.data 5 }
    (frame, messageParameters)

/-- The call `definitions[i].handleParameters(frame, messageParameters, isDecodingFrame)`
behind its `!= NULL` test. -/
def callHandler (h : jr_viscaHandler) (frame : jr_viscaFrame)
    (messageParameters : jr_viscaMessageParameters) (isDecodingFrame : Bool) :
    jr_viscaFrame × jr_viscaMessageParameters :=
  match h with
  | .NULL => (frame, messageParameters)
  | .handlePanTiltPositionInqResponseParameters =>
    jr_visca_handlePanTiltPositionInqResponseParameters frame messageParameters isDecodingFrame

/-- An array of capacity `MAX` with the given initialiser list: the remaining elements are
zero. -/
def arrayInit (MAX : Nat) (init : List Nat) : List Nat :=
  init ++ List.replicate (MAX - init.length) 0

/-- The table `definitions`, terminating entry included. -/
def definitions (MAX : Nat) : List jr_viscaMessageDefinition :=
  [ { signature := arrayInit MAX [0x09, 0x06, 0x12]
      signatureMask := arrayInit MAX [0xff, 0xff, 0xff]
      signatureLength := 3
      commandType := JR_VISCA_MESSAGE_PAN_TILT_POSITION_INQ
      handleParameters := .NULL },
    { signature := arrayInit MAX [0x50, 0x00, 0x00, 0x00, 0x00, 0x00, 0x00, 0x00, 0x00]
      signatureMask := arrayInit MAX [0xff, 0xf0, 0xf0, 0xf0, 0xf0, 0xf0, 0xf0, 0xf0, 0xf0]
      signatureLength := 9
      commandType := JR_VISCA_MESSAGE_PAN_TILT_POSITION_INQ_RESPONSE
      handleParameters := .handlePanTiltPositionInqResponseParameters },
    { signature := arrayInit MAX [0x09, 0x04, 0x47]
      signatureMask := arrayInit MAX [0xff, 0xff, 0xff]
      signatureLength := 3
      commandType := JR_VISCA_MESSAGE_ZOOM_POSITION_INQ
      handleParameters := .NULL },
    { signature := arrayInit MAX []
      signatureMask := arrayInit MAX []
      signatureLength := 0
      commandType := 0
      handleParameters := .NULL } ]

/-- The function `_jr_viscaMemAnd`: the array `output` after the call. -/
def _jr_viscaMemAnd : List Nat → List Nat → List Nat → Nat → List Nat
  | a :: as, b :: bs, _ :: os, length + 1 => (a &&& b) :: _jr_viscaMemAnd as bs os length
  | _, _, output, _ => output

/-- The `while` loop of `jr_viscaDecodeFrame` from entry `i` on, `defs` being the table from
that entry on. `scratch i` is the content `maskedFrame` starts with in iteration `i`. The
result is the return value and the parameters after the call; `none` stands for a scan that
leaves the table without meeting the terminating entry. -/
def decodeLoop (frame : jr_viscaFrame) (messageParameters : jr_viscaMessageParameters)
    (scratch : Nat → List Nat) :
    List jr_viscaMessageDefinition → Nat → Option (Int × jr_viscaMessageParameters)
  | [], _ => none
  | d :: defs, i =>
    if d.signatureLength = 0 then some (-1, messageParameters)
    else
      let maskedFrame := _jr_viscaMemAnd frame.data d.signatureMask (scratch i) frame.dataLength
      if memcmpEq maskedFrame d.signature d.signatureLength then
        let r := callHandler d.handleParameters frame messageParameters true
        some (d.commandType, r.2)
      else decodeLoop frame messageParameters scratch defs (i + 1)

/-- The function `jr_viscaDecodeFrame`. -/
def jr_viscaDecodeFrame (MAX : Nat) (frame : jr_viscaFrame)
    (messageParameters : jr_viscaMessageParameters) (scratch : Nat → List Nat) :
    Option (Int × jr_viscaMessageParameters) :=
  decodeLoop frame messageParameters scratch (definitions MAX) 0

/-- The `while` loop of `jr_viscaEncodeFrame` over the table from the current entry on: the
return value and the frame after the call; `none` as in `decodeLoop`. -/
def encodeLoop (messageType : Int) (messageParameters : jr_viscaMessageParameters)
    (frame : jr_viscaFrame) : List jr_viscaMessageDefinition → Option (Int × jr_viscaFrame)
  | [] => none
  | d :: defs =>
    if d.signatureLength = 0 then some (-1, frame)
    else if messageType = d.commandType then
      let frame := { frame with data := memcpy frame.data d.signature d.signatureLength }
      let frame := { frame with dataLength := d.signatureLength }
      let r := callHandler d.handleParameters frame messageParameters false
      some (0, r.1)
    else encodeLoop messageType messageParameters frame defs

/-- The function `jr_viscaEncodeFrame`. -/
def jr_viscaEncodeFrame (MAX : Nat) (messageType : Int)
    (messageParameters : jr_viscaMessageParameters) (frame : jr_viscaFrame) :
    Option (Int × jr_viscaFrame) :=
  encodeLoop messageType messageParameters frame (definitions MAX)

/-- The first `0xff` byte of `data` is at index `i`. -/
def FirstTerminatorAt (data : List Nat) (i : Nat) : Prop :=
  data[i]? = some 0xff ∧ ∀ j, j < i → data[j]? ≠ some 0xff

/-- The spec's matching condition for a table entry `e` and a payload:
`(payload[j] & e.signatureMask[j]) == e.signature[j]` for every `j < e.signatureLength`. -/
def signatureMatches (payload : List Nat) (e : jr_viscaMessageDefinition) : Prop :=
  ∀ j, j < e.signatureLength →
    payload[j]?.map (· &&& e.signatureMask.getD j 0) = some (e.signature.getD j 0)

instance (payload : List Nat) (e : jr_viscaMessageDefinition) :
    Decidable (signatureMatches payload e) := by
  unfold signatureMatches
  infer_instance

/-- The table without its terminating entry. -/
def tableEntries (table : List jr_viscaMessageDefinition) : List jr_viscaMessageDefinition :=
  table.takeWhile (fun e => decide (e.signatureLength ≠ 0))

/-- The spec's decoder, written from its words: the kind of the first table entry, in table
order and terminator excluded, whose signature matches the payload under its mask, and `-1`
(unrecognized) when there is none. -/
def decodeReference (table : List jr_viscaMessageDefinition) (payload : List Nat) : Int :=
  match (tableEntries table).find? (fun e => decide (signatureMatches payload e)) with
  | some e => e.commandType
  | none => -1

/-- Nibble `k` of a 16-bit value, the most significant one first (`k = 0, 1, 2, 3`):
`(value >> (12 - 4k)) & 0xf`. -/
def nibble (value : Int) (k : Nat) : Nat :=
  (Int.land (value >>> (4 * (3 - k))) 0xf).toNat

/-! ## Lemmas on the terminator scan -/

theorem scanTerminator_shift (l : List Nat) (k : Nat) :
    scanTerminator l k = k + scanTerminator l 0 := by
  induction l generalizing k with
  | nil => simp [scanTerminator]
  | cons b rest ih =>
    unfold scanTerminator
    by_cases hb : b = 0xff
    · simp [hb]
    · simp only [hb, if_false]
      rw [ih (k + 1), ih (0 + 1)]
      omega

theorem scanTerminator_le (l : List Nat) : scanTerminator l 0 ≤ l.length := by
  induction l with
  | nil => simp [scanTerminator]
  | cons b rest ih =>
    unfold scanTerminator
    by_cases hb : b = 0xff
    · simp [hb]
    · simp only [hb, if_false]
      rw [scanTerminator_shift]
      simp only [List.length_cons]
      omega

theorem scanTerminator_of_first (l : List Nat) (i : Nat) (h : FirstTerminatorAt l i) :
    scanTerminator l 0 = i := by
  induction l generalizing i with
  | nil => simp [FirstTerminatorAt] at h
  | cons b rest ih =>
    obtain ⟨h1, h2⟩ := h
    unfold scanTerminator
    cases i with
    | zero =>
      simp at h1
      simp [h1]
    | succ n =>
      have hb : b ≠ 0xff := by
        have := h2 0 (Nat.succ_pos n)
        simpa using this
      simp only [hb, if_false]
      rw [scanTerminator_shift]
      have : scanTerminator rest 0 = n := by
        apply ih
        refine ⟨by simpa using h1, ?_⟩
        intro j hj
        have := h2 (j + 1) (by omega)
        simpa using this
      omega

theorem first_of_scanTerminator (l : List Nat) (h : scanTerminator l 0 < l.length) :
    FirstTerminatorAt l (scanTerminator l 0) := by
  induction l with
  | nil => simp at h
  | cons b rest ih =>
    unfold scanTerminator at h ⊢
    by_cases hb : b = 0xff
    · simp [hb, FirstTerminatorAt]
    · simp only [hb, if_false] at h ⊢
      rw [scanTerminator_shift] at h ⊢
      simp only [List.length_cons] at h
      obtain ⟨h1, h2⟩ := ih (by omega)
      refine ⟨?_, ?_⟩
      · rw [show 0 + 1 + scanTerminator rest 0 = scanTerminator rest 0 + 1 by omega]
        simpa using h1
      · intro j hj
        cases j with
        | zero => simpa using hb
        | succ m =>
          have := h2 m (by omega)
          simpa using this

theorem scanTerminator_eq_length_iff (l : List Nat) :
    scanTerminator l 0 = l.length ↔ ∀ k, k < l.length → l[k]? ≠ some 0xff := by
  constructor
  · intro h k hk hcontra
    -- take the first terminator: the scan stops there
    induction l generalizing k with
    | nil => simp at hk
    | cons b rest ih =>
      unfold scanTerminator at h
      by_cases hb : b = 0xff
      · simp [hb] at h
      · simp only [hb, if_false] at h
        rw [scanTerminator_shift] at h
        simp only [List.length_cons] at h hk
        cases k with
        | zero => simp at hcontra; exact hb hcontra
        | succ m =>
          exact ih (by omega) m (by omega) (by simpa using hcontra)
  · intro h
    by_contra hne
    have hlt : scanTerminator l 0 < l.length :=
      lt_of_le_of_ne (scanTerminator_le l) hne
    exact h _ hlt (first_of_scanTerminator l hlt).1

theorem memcpy_eq (dest src : List Nat) (n : Nat) (hd : n ≤ dest.length) (hs : n ≤ src.length) :
    memcpy dest src n = src.take n ++ dest.drop n := by
  induction n generalizing dest src with
  | zero => cases dest <;> cases src <;> simp [memcpy]
  | succ n ih =>
    cases dest with
    | nil => simp at hd
    | cons d ds =>
      cases src with
      | nil => simp at hs
      | cons s ss =>
        simp only [List.length_cons] at hd hs
        simp [memcpy, ih ds ss (by omega) (by omega)]

theorem memcpy_length (dest src : List Nat) (n : Nat) : (memcpy dest src n).length = dest.length := by
  induction n generalizing dest src with
  | zero => cases dest <;> cases src <;> simp [memcpy]
  | succ n ih =>
    cases dest with
    | nil => simp [memcpy]
    | cons d ds =>
      cases src with
      | nil => simp [memcpy]
      | cons s ss => simp [memcpy, ih ds ss]

theorem dataToFrame_of_first (MAX : Nat) (data : List Nat) (frame : jr_viscaFrame) (i : Nat)
    (h : FirstTerminatorAt data i) :
    jr_viscaDataToFrame MAX data frame =
      if (i : Int) > (MAX : Int) - 1 then (-1, frame)
      else if i = 0 then (-1, frame)
      else ((i : Int) + 1,
        { sender := (data.getD 0 0 >>> 4) &&& 0x7
          receiver := data.getD 0 0 &&& 0x7
          data := memcpy frame.data (data.drop 1) (i - 1)
          dataLength := i - 1 }) := by
  have hs := scanTerminator_of_first data i h
  have hlt : i < data.length := by
    have := h.1
    rw [List.getElem?_eq_some_iff] at this
    exact this.1
  unfold jr_viscaDataToFrame
  simp only [hs]
  simp [hlt]

theorem dataToFrame_of_none (MAX : Nat) (data : List Nat) (frame : jr_viscaFrame)
    (h : ∀ k, k < data.length → data[k]? ≠ some 0xff) :
    jr_viscaDataToFrame MAX data frame = (0, frame) := by
  have hs := (scanTerminator_eq_length_iff data).2 h
  unfold jr_viscaDataToFrame
  simp [hs]

theorem first_or_none (data : List Nat) :
    (∃ i, FirstTerminatorAt data i) ∨ (∀ k, k < data.length → data[k]? ≠ some 0xff) := by
  by_cases h : scanTerminator data 0 < data.length
  · exact Or.inl ⟨_, first_of_scanTerminator data h⟩
  · right
    apply (scanTerminator_eq_length_iff data).1
    have := scanTerminator_le data
    omega

theorem first_unique (data : List Nat) (i j : Nat) (hi : FirstTerminatorAt data i)
    (hj : FirstTerminatorAt data j) : i = j := by
  rw [← scanTerminator_of_first data i hi, ← scanTerminator_of_first data j hj]

/-- Claim C2. When the first `0xff` byte of the buffer is at index `i` with
`1 ≤ i ≤ JR_VISCA_MAX_FRAME_DATA_LENGTH - 1`, `jr_viscaDataToFrame` returns `i + 1` and the
frame it leaves has `sender = (data[0] >> 4) & 0x7`, `receiver = data[0] & 0x7`,
`dataLength = i - 1` and payload bytes `frame.data[k] = data[k + 1]` for every `k < i - 1`;
the bytes after the sentinel play no part: any buffer with the same first `i + 1` bytes gives
the same result. -/
theorem dataToFrame_success (MAX : Nat) (data : List Nat) (frame : jr_viscaFrame) (i : Nat)
    (hcap : frame.data.length = MAX) (hfirst : FirstTerminatorAt data i) (h1 : 1 ≤ i)
    (h2 : (i : Int) ≤ (MAX : Int) - 1) :
    (jr_viscaDataToFrame MAX data frame).1 = (i : Int) + 1 ∧
    (jr_viscaDataToFrame MAX data frame).2.sender = (data.getD 0 0 >>> 4) &&& 0x7 ∧
    (jr_viscaDataToFrame MAX data frame).2.receiver = data.getD 0 0 &&& 0x7 ∧
    (jr_viscaDataToFrame MAX data frame).2.dataLength = i - 1 ∧
    (∀ k, k < i - 1 → ∃ b, data[k + 1]? = some b ∧
      (jr_viscaDataToFrame MAX data frame).2.data[k]? = some b) ∧
    (∀ data2 : List Nat, data2.take (i + 1) = data.take (i + 1) →
      jr_viscaDataToFrame MAX data2 frame = jr_viscaDataToFrame MAX data frame) := by
  have hlt : i < data.length := by
    have := hfirst.1
    rw [List.getElem?_eq_some_iff] at this
    exact this.1
  have hres := dataToFrame_of_first MAX data frame i hfirst
  have hn1 : ¬ ((i : Int) > (MAX : Int) - 1) := by omega
  have hn2 : ¬ (i = 0) := by omega
  rw [if_neg hn1, if_neg hn2] at hres
  have hcpy : memcpy frame.data (data.drop 1) (i - 1)
      = (data.drop 1).take (i - 1) ++ frame.data.drop (i - 1) := by
    apply memcpy_eq
    · omega
    · simp only [List.length_drop]; omega
  refine ⟨by rw [hres], by rw [hres], by rw [hres], by rw [hres], ?_, ?_⟩
  · intro k hk
    refine ⟨data[k + 1], by simp [List.getElem?_eq_getElem (show k + 1 < data.length by omega)], ?_⟩
    rw [hres]
    simp only [hcpy]
    rw [List.getElem?_append_left (by simp only [List.length_take, List.length_drop]; omega)]
    rw [List.getElem?_take_of_lt hk, List.getElem?_drop]
    rw [show 1 + k = k + 1 by omega]
    exact List.getElem?_eq_getElem _
  · intro data2 h2eq
    have hfirst2 : FirstTerminatorAt data2 i := by
      refine ⟨?_, ?_⟩
      · have : (data2.take (i + 1))[i]? = (data.take (i + 1))[i]? := by rw [h2eq]
        rw [List.getElem?_take_of_lt (by omega), List.getElem?_take_of_lt (by omega)] at this
        rw [this]; exact hfirst.1
      · intro j hj
        have : (data2.take (i + 1))[j]? = (data.take (i + 1))[j]? := by rw [h2eq]
        rw [List.getElem?_take_of_lt (by omega), List.getElem?_take_of_lt (by omega)] at this
        rw [this]; exact hfirst.2 j hj
    have hres2 := dataToFrame_of_first MAX data2 frame i hfirst2
    rw [if_neg hn1, if_neg hn2] at hres2
    rw [hres, hres2]
    have e0 : data2.getD 0 0 = data.getD 0 0 := by
      have : (data2.take (i + 1))[0]? = (data.take (i + 1))[0]? := by rw [h2eq]
      rw [List.getElem?_take_of_lt (by omega), List.getElem?_take_of_lt (by omega)] at this
      simp only [List.getD_eq_getElem?_getD, this]
    have hlt2 : i < data2.length := by
      have := hfirst2.1
      rw [List.getElem?_eq_some_iff] at this
      exact this.1
    have e1 : memcpy frame.data (data2.drop 1) (i - 1) = memcpy frame.data (data.drop 1) (i - 1) := by
      rw [hcpy, memcpy_eq _ _ _ (by omega) (by simp only [List.length_drop]; omega)]
      congr 1
      have : (data2.take (i + 1)).drop 1 = (data.take (i + 1)).drop 1 := by rw [h2eq]
      have h3 : ((data2.take (i + 1)).drop 1).take (i - 1) = ((data.take (i + 1)).drop 1).take (i - 1) := by
        rw [this]
      simpa [List.drop_take, List.take_take, show min (i - 1) i = i - 1 by omega] using h3
    rw [e0, e1]

/-- Concrete instance: the buffer `81 09 04 47 ff` with capacity 16. -/
theorem dataToFrame_success_witness :
    (jr_viscaDataToFrame 16 [0x81, 0x09, 0x04, 0x47, 0xff] ⟨5, 5, List.replicate 16 0xaa, 0⟩).1
      = 5 ∧
    (jr_viscaDataToFrame 16 [0x81, 0x09, 0x04, 0x47, 0xff]
      ⟨5, 5, List.replicate 16 0xaa, 0⟩).2.dataLength = 3 :=
  have h := dataToFrame_success 16 [0x81, 0x09, 0x04, 0x47, 0xff]
    ⟨5, 5, List.replicate 16 0xaa, 0⟩ 4 (by decide)
    ⟨by decide, by decide⟩ (by decide) (by decide)
  ⟨h.1, h.2.2.2.1⟩

/-- Claim C5. `jr_viscaDataToFrame` returns `0` exactly when no byte of the buffer (the empty
buffer included) equals `0xff`; its result is `0`, `-1` or a byte count of at least `2`; and the
result is a function of the position of the first `0xff` alone: with the first `0xff` at index
`i` it is `-1` when `i = 0` or `i > JR_VISCA_MAX_FRAME_DATA_LENGTH - 1` and `i + 1` otherwise,
so two buffers with the first `0xff` at the same index get the same result. -/
theorem dataToFrame_outcomes (MAX : Nat) (data : List Nat) (frame : jr_viscaFrame) :
    ((jr_viscaDataToFrame MAX data frame).1 = 0 ↔
      ∀ k, k < data.length → data[k]? ≠ some 0xff) ∧
    ((jr_viscaDataToFrame MAX data frame).1 = 0 ∨ (jr_viscaDataToFrame MAX data frame).1 = -1 ∨
      2 ≤ (jr_viscaDataToFrame MAX data frame).1) ∧
    (∀ i, FirstTerminatorAt data i →
      (jr_viscaDataToFrame MAX data frame).1 =
        if i = 0 ∨ (i : Int) > (MAX : Int) - 1 then -1 else (i : Int) + 1) ∧
    (∀ (data2 : List Nat) (frame2 : jr_viscaFrame) (i : Nat),
      FirstTerminatorAt data i → FirstTerminatorAt data2 i →
      (jr_viscaDataToFrame MAX data2 frame2).1 = (jr_viscaDataToFrame MAX data frame).1) := by
  have key : ∀ (d : List Nat) (f : jr_viscaFrame) (i : Nat), FirstTerminatorAt d i →
      (jr_viscaDataToFrame MAX d f).1 =
        if i = 0 ∨ (i : Int) > (MAX : Int) - 1 then -1 else (i : Int) + 1 := by
    intro d f i hi
    rw [dataToFrame_of_first MAX d f i hi]
    by_cases h1 : (i : Int) > (MAX : Int) - 1
    · simp [h1]
    · by_cases h2 : i = 0
      · simp [h2]
      · simp [h1, h2]
  refine ⟨?_, ?_, key data frame, ?_⟩
  · constructor
    · intro h0
      rcases first_or_none data with ⟨i, hi⟩ | hnone
      · rw [key data frame i hi] at h0
        split at h0 <;> omega
      · exact hnone
    · intro hnone
      rw [dataToFrame_of_none MAX data frame hnone]
  · rcases first_or_none data with ⟨i, hi⟩ | hnone
    · rw [key data frame i hi]
      split
      · right; left; rfl
      · right; right
        rename_i hc
        have : i ≠ 0 := fun h => hc (Or.inl h)
        omega
    · left
      rw [dataToFrame_of_none MAX data frame hnone]
  · intro data2 frame2 i hi hi2
    rw [key data frame i hi, key data2 frame2 i hi2]

/-- Claim C6. On a non-empty buffer whose byte at index 0 is `0xff`, `jr_viscaDataToFrame`
returns `-1` and leaves the frame as it was, whatever follows in the buffer and whatever the
value of `JR_VISCA_MAX_FRAME_DATA_LENGTH`. -/
theorem dataToFrame_terminator_first (MAX : Nat) (rest : List Nat) (frame : jr_viscaFrame) :
    jr_viscaDataToFrame MAX (0xff :: rest) frame = (-1, frame) := by
  have hfirst : FirstTerminatorAt (0xff :: rest) 0 := ⟨by simp, by intro j hj; omega⟩
  rw [dataToFrame_of_first MAX _ frame 0 hfirst]
  split <;> simp

/-- Claim C7. When the first `0xff` byte of the buffer is at an index `i` whose payload length
`i - 1` exceeds `JR_VISCA_MAX_FRAME_DATA_LENGTH - 1`, `jr_viscaDataToFrame` returns `-1` and
the frame is left as it was: nothing is copied into it. -/
theorem dataToFrame_oversized (MAX : Nat) (data : List Nat) (frame : jr_viscaFrame) (i : Nat)
    (hfirst : FirstTerminatorAt data i) (hbig : (i : Int) - 1 > (MAX : Int) - 1) :
    jr_viscaDataToFrame MAX data frame = (-1, frame) := by
  rw [dataToFrame_of_first MAX data frame i hfirst]
  have : (i : Int) > (MAX : Int) - 1 := by omega
  simp [this]

/-- Concrete instance: capacity 16 and the first `0xff` at index 17. -/
theorem dataToFrame_oversized_witness :
    jr_viscaDataToFrame 16 [0x81, 1, 2, 3, 4, 5, 6, 7, 8, 9, 10, 11, 12, 13, 14, 15, 16, 0xff]
        ⟨5, 5, List.replicate 16 7, 0⟩
      = (-1, ⟨5, 5, List.replicate 16 7, 0⟩) :=
  dataToFrame_oversized 16 [0x81, 1, 2, 3, 4, 5, 6, 7, 8, 9, 10, 11, 12, 13, 14, 15, 16, 0xff]
    ⟨5, 5, List.replicate 16 7, 0⟩ 17 ⟨by decide, by decide⟩ (by decide)

/-- Claim C8, refuted as stated: with `JR_VISCA_MAX_FRAME_DATA_LENGTH = 16`, the buffer
`81 01 02 .. 0f ff` has its first `0xff` at index `16`, a payload of `15 = MAX - 1` bytes, and
`jr_viscaDataToFrame` returns the corruption code `-1`, not `17`. -/
theorem dataToFrame_full_payload_rejected :
    FirstTerminatorAt [0x81, 1, 2, 3, 4, 5, 6, 7, 8, 9, 10, 11, 12, 13, 14, 15, 0xff] 16 ∧
    ((16 : Int) - 1 ≤ (16 : Int) - 1) ∧
    (jr_viscaDataToFrame 16 [0x81, 1, 2, 3, 4, 5, 6, 7, 8, 9, 10, 11, 12, 13, 14, 15, 0xff]
      ⟨5, 5, List.replicate 16 7, 0⟩).1 = -1 ∧
    (jr_viscaDataToFrame 16 [0x81, 1, 2, 3, 4, 5, 6, 7, 8, 9, 10, 11, 12, 13, 14, 15, 0xff]
      ⟨5, 5, List.replicate 16 7, 0⟩).1 ≠ 16 + 1 := by
  refine ⟨⟨by decide, by decide⟩, by decide, by decide, by decide⟩

/-- Claim C8, amended. When the first `0xff` byte of the buffer is at index `i ≥ 1`,
`jr_viscaDataToFrame` succeeds and returns `i + 1` exactly when the payload length `i - 1` is
at most `JR_VISCA_MAX_FRAME_DATA_LENGTH - 2`, and returns the corruption code `-1` otherwise;
in particular a payload of exactly `JR_VISCA_MAX_FRAME_DATA_LENGTH - 1` bytes (sentinel at
index `JR_VISCA_MAX_FRAME_DATA_LENGTH`) is reported as corrupt. -/
theorem dataToFrame_accepted_lengths (MAX : Nat) (data : List Nat) (frame : jr_viscaFrame)
    (i : Nat) (hfirst : FirstTerminatorAt data i) (h1 : 1 ≤ i) :
    ((i : Int) - 1 ≤ (MAX : Int) - 2 →
      (jr_viscaDataToFrame MAX data frame).1 = (i : Int) + 1) ∧
    ((i : Int) - 1 > (MAX : Int) - 2 →
      jr_viscaDataToFrame MAX data frame = (-1, frame)) ∧
    (i = MAX → jr_viscaDataToFrame MAX data frame = (-1, frame)) := by
  have hres := dataToFrame_of_first MAX data frame i hfirst
  refine ⟨?_, ?_, ?_⟩
  · intro h
    rw [hres, if_neg (by omega), if_neg (by omega)]
  · intro h
    rw [hres, if_pos (by omega)]
  · intro h
    rw [hres, if_pos (by omega)]

/-- Concrete instance: capacity 16 and a payload of 14 bytes. -/
theorem dataToFrame_accepted_lengths_witness :
    (jr_viscaDataToFrame 16 [0x81, 1, 2, 3, 4, 5, 6, 7, 8, 9, 10, 11, 12, 13, 14, 0xff]
      ⟨5, 5, List.replicate 16 7, 0⟩).1 = 16 :=
  (dataToFrame_accepted_lengths 16 [0x81, 1, 2, 3, 4, 5, 6, 7, 8, 9, 10, 11, 12, 13, 14, 0xff]
    ⟨5, 5, List.replicate 16 7, 0⟩ 15 ⟨by decide, by decide⟩ (by decide)).1 (by decide)

theorem nat_and_15 (n : Nat) : n &&& 0xf = n % 16 :=
  Nat.and_pow_two_sub_one_eq_mod n 4

theorem nat_ldiff_15 (m : Nat) : Nat.ldiff 15 m = 15 - m % 16 := by
  have h1 : Nat.ldiff 15 m = Nat.ldiff 15 (m % 16) := by
    apply Nat.eq_of_testBit_eq
    intro i
    rw [Nat.testBit_ldiff, Nat.testBit_ldiff]
    rw [show (16 : Nat) = 2 ^ 4 by norm_num, Nat.testBit_mod_two_pow]
    rw [show (15 : Nat) = 2 ^ 4 - 1 by norm_num, Nat.testBit_two_pow_sub_one]
    by_cases hi : i < 4 <;> simp [hi]
  rw [h1]
  have hr : m % 16 < 16 := Nat.mod_lt _ (by norm_num)
  generalize m % 16 = r at hr
  apply Nat.eq_of_testBit_eq
  intro i
  rw [Nat.testBit_ldiff]
  by_cases hi : i < 4
  · interval_cases r <;> interval_cases i <;> decide
  · have hp : 16 ≤ 2 ^ i := by
      calc 16 = 2 ^ 4 := by norm_num
        _ ≤ 2 ^ i := Nat.pow_le_pow_right (by norm_num) (by omega)
    rw [Nat.testBit_lt_two_pow (show 15 < 2 ^ i by omega),
      Nat.testBit_lt_two_pow (show 15 - r < 2 ^ i by omega)]
    rfl

theorem int_land_15 (x : Int) : Int.land x 0xf = x % 16 := by
  cases x with
  | ofNat n =>
    show ((Nat.land n 15 : Nat) : Int) = (n : Int) % 16
    have := nat_and_15 n
    rw [show Nat.land n 15 = n &&& 0xf from rfl, this]
    norm_cast
  | negSucc m =>
    show ((Nat.ldiff 15 m : Nat) : Int) = Int.negSucc m % 16
    rw [nat_ldiff_15, Int.negSucc_eq]
    have : m % 16 < 16 := Nat.mod_lt _ (by norm_num)
    omega

theorem memAnd_take (a b out : List Nat) (L n : Nat) (hn : n ≤ L) (ha : n ≤ a.length)
    (hb : n ≤ b.length) (ho : n ≤ out.length) :
    (_jr_viscaMemAnd a b out L).take n = List.zipWith (· &&& ·) (a.take n) (b.take n) := by
  induction n generalizing a b out L with
  | zero => simp
  | succ n ih =>
    cases a with
    | nil => simp at ha
    | cons x xs =>
      cases b with
      | nil => simp at hb
      | cons y ys =>
        cases out with
        | nil => simp at ho
        | cons z zs =>
          cases L with
          | zero => omega
          | succ L =>
            simp only [List.length_cons] at ha hb ho
            simp [_jr_viscaMemAnd, ih xs ys zs L (by omega) (by omega) (by omega) (by omega)]

theorem memAnd_length (a b out : List Nat) (L : Nat) :
    (_jr_viscaMemAnd a b out L).length = out.length := by
  induction L generalizing a b out with
  | zero => cases a <;> cases b <;> cases out <;> simp [_jr_viscaMemAnd]
  | succ L ih =>
    cases a <;> cases b <;> cases out <;> simp [_jr_viscaMemAnd, ih]

theorem arrayInit_length (MAX : Nat) (init : List Nat) (h : init.length ≤ MAX) :
    (arrayInit MAX init).length = MAX := by
  simp [arrayInit]; omega

theorem arrayInit_take (MAX : Nat) (init : List Nat) :
    (arrayInit MAX init).take init.length = init := by
  simp [arrayInit]

/-- The comparison of `jr_viscaDecodeFrame` for an entry whose signature and mask have `n`
initialisers, on a payload of at least `n` bytes. -/
theorem memcmp_memAnd (MAX : Nat) (data scr sig mask : List Nat) (L n : Nat)
    (hsig : sig.length = n) (hmask : mask.length = n) (hn : n ≤ L) (hmax : n ≤ MAX)
    (hdata : data.length = MAX) (hscr : scr.length = MAX) :
    memcmpEq (_jr_viscaMemAnd data (arrayInit MAX mask) scr L) (arrayInit MAX sig) n
      = (List.zipWith (· &&& ·) (data.take n) mask == sig) := by
  unfold memcmpEq
  rw [memAnd_take _ _ _ L n hn (by omega) (by rw [arrayInit_length _ _ (by omega)]; omega) (by omega)]
  subst hsig
  rw [arrayInit_take]
  have hm : (arrayInit MAX mask).take sig.length = mask := by
    rw [← hmask, arrayInit_take]
  rw [hm]

theorem exists_nine (l : List Nat) (h : 9 ≤ l.length) :
    ∃ d0 d1 d2 d3 d4 d5 d6 d7 d8 rest, l = d0 :: d1 :: d2 :: d3 :: d4 :: d5 :: d6 :: d7 :: d8 :: rest := by
  match l, h with
  | d0 :: d1 :: d2 :: d3 :: d4 :: d5 :: d6 :: d7 :: d8 :: rest, _ =>
    exact ⟨d0, d1, d2, d3, d4, d5, d6, d7, d8, rest, rfl⟩

/-- The decoder on a frame whose payload has at least nine bytes: the three comparisons in
table order. -/
theorem decode_of_long (MAX : Nat) (frame : jr_viscaFrame)
    (params : jr_viscaMessageParameters) (scratch : Nat → List Nat)
    (hcap : frame.data.length = MAX) (hscr : ∀ i, (scratch i).length = MAX)
    (hL : 9 ≤ frame.dataLength) (hL2 : frame.dataLength ≤ MAX) :
    jr_viscaDecodeFrame MAX frame params scratch =
      if List.zipWith (· &&& ·) (frame.data.take 3) [0xff, 0xff, 0xff] == [0x09, 0x06, 0x12] then
        some (1, params)
      else if List.zipWith (· &&& ·) (frame.data.take 9)
          [0xff, 0xf0, 0xf0, 0xf0, 0xf0, 0xf0, 0xf0, 0xf0, 0xf0]
          == [0x50, 0x00, 0x00, 0x00, 0x00, 0x00, 0x00, 0x00, 0x00] then
        some (2, ⟨_jr_viscaRead16FromBuffer frame.data 1, _jr_viscaRead16FromBuffer frame.data 5⟩)
      else if List.zipWith (· &&& ·) (frame.data.take 3) [0xff, 0xff, 0xff] == [0x09, 0x04, 0x47] then
        some (0x947, params)
      else some (-1, params) := by
  unfold jr_viscaDecodeFrame definitions
  simp only [decodeLoop]
  rw [memcmp_memAnd MAX frame.data (scratch 0) [0x09, 0x06, 0x12] [0xff, 0xff, 0xff] frame.dataLength 3 rfl rfl (by omega) (by omega)
    hcap (hscr 0)]
  rw [memcmp_memAnd MAX frame.data (scratch (0 + 1)) [0x50, 0x00, 0x00, 0x00, 0x00, 0x00, 0x00, 0x00, 0x00]
    [0xff, 0xf0, 0xf0, 0xf0, 0xf0, 0xf0, 0xf0, 0xf0, 0xf0] frame.dataLength 9 rfl rfl (by omega)
    (by omega) hcap (hscr _)]
  rw [memcmp_memAnd MAX frame.data (scratch (0 + 1 + 1)) [0x09, 0x04, 0x47] [0xff, 0xff, 0xff] frame.dataLength 3 rfl rfl (by omega)
    (by omega) hcap (hscr _)]
  simp [callHandler, jr_visca_handlePanTiltPositionInqResponseParameters,
    JR_VISCA_MESSAGE_PAN_TILT_POSITION_INQ, JR_VISCA_MESSAGE_PAN_TILT_POSITION_INQ_RESPONSE,
    JR_VISCA_MESSAGE_ZOOM_POSITION_INQ]

theorem arrayInit_getD (MAX : Nat) (init : List Nat) (j : Nat) (hj : j < init.length) :
    (arrayInit MAX init).getD j 0 = init.getD j 0 := by
  unfold arrayInit
  exact List.getD_append _ _ _ _ hj

/-- The spec's matching condition for an entry whose signature and mask have `n`
initialisers, on a payload of at least `n` bytes. -/
theorem signatureMatches_iff (MAX : Nat) (payload sig mask : List Nat) (n : Nat) (k : Int)
    (h : jr_viscaHandler) (hsig : sig.length = n) (hmask : mask.length = n)
    (hp : n ≤ payload.length) :
    signatureMatches payload ⟨arrayInit MAX sig, arrayInit MAX mask, n, k, h⟩ ↔
      List.zipWith (· &&& ·) (payload.take n) mask = sig := by
  unfold signatureMatches
  constructor
  · intro hall
    apply List.ext_getElem?
    intro j
    by_cases hj : j < n
    · have := hall j hj
      simp only at this
      rw [arrayInit_getD MAX mask j (by omega), arrayInit_getD MAX sig j (by omega)] at this
      rw [List.getElem?_zipWith, List.getElem?_take_of_lt hj]
      have hm : mask[j]? = some (mask.getD j 0) := by
        rw [List.getD_eq_getElem _ _ (by omega)]
        exact List.getElem?_eq_getElem _
      have hs : sig[j]? = some (sig.getD j 0) := by
        rw [List.getD_eq_getElem _ _ (by omega)]
        exact List.getElem?_eq_getElem _
      rw [hm, hs, ← this]
      cases payload[j]? <;> simp
    · rw [List.getElem?_eq_none (by simp; omega), List.getElem?_eq_none (by omega)]
  · intro heq j hj
    simp only at hj
    simp only
    rw [arrayInit_getD MAX mask j (by omega), arrayInit_getD MAX sig j (by omega)]
    have hz : (List.zipWith (· &&& ·) (payload.take n) mask)[j]? = sig[j]? := by rw [heq]
    rw [List.getElem?_zipWith, List.getElem?_take_of_lt hj] at hz
    have hm : mask[j]? = some (mask.getD j 0) := by
      rw [List.getD_eq_getElem _ _ (by omega)]
      exact List.getElem?_eq_getElem _
    have hs : sig[j]? = some (sig.getD j 0) := by
      rw [List.getD_eq_getElem _ _ (by omega)]
      exact List.getElem?_eq_getElem _
    rw [hm, hs] at hz
    have hpj : payload[j]? = some payload[j] := List.getElem?_eq_getElem (by omega)
    rw [hpj] at hz ⊢
    simpa using hz

theorem tableEntries_definitions (MAX : Nat) :
    tableEntries (definitions MAX) = (definitions MAX).take 3 := by
  simp [tableEntries, definitions, List.takeWhile]

theorem decodeReference_of_long (MAX : Nat) (payload : List Nat) (hp : 9 ≤ payload.length) :
    decodeReference (definitions MAX) payload =
      if List.zipWith (· &&& ·) (payload.take 3) [0xff, 0xff, 0xff] = [0x09, 0x06, 0x12] then 1
      else if List.zipWith (· &&& ·) (payload.take 9)
          [0xff, 0xf0, 0xf0, 0xf0, 0xf0, 0xf0, 0xf0, 0xf0, 0xf0]
          = [0x50, 0x00, 0x00, 0x00, 0x00, 0x00, 0x00, 0x00, 0x00] then 2
      else if List.zipWith (· &&& ·) (payload.take 3) [0xff, 0xff, 0xff] = [0x09, 0x04, 0x47] then
        0x947
      else -1 := by
  unfold decodeReference
  rw [tableEntries_definitions]
  unfold definitions
  simp only [List.take, List.find?]
  have e1 := signatureMatches_iff MAX payload [0x09, 0x06, 0x12] [0xff, 0xff, 0xff] 3
    JR_VISCA_MESSAGE_PAN_TILT_POSITION_INQ .NULL rfl rfl (by omega)
  have e2 := signatureMatches_iff MAX payload
    [0x50, 0x00, 0x00, 0x00, 0x00, 0x00, 0x00, 0x00, 0x00]
    [0xff, 0xf0, 0xf0, 0xf0, 0xf0, 0xf0, 0xf0, 0xf0, 0xf0] 9
    JR_VISCA_MESSAGE_PAN_TILT_POSITION_INQ_RESPONSE .handlePanTiltPositionInqResponseParameters
    rfl rfl (by omega)
  have e3 := signatureMatches_iff MAX payload [0x09, 0x04, 0x47] [0xff, 0xff, 0xff] 3
    JR_VISCA_MESSAGE_ZOOM_POSITION_INQ .NULL rfl rfl (by omega)
  simp only [e1, e2, e3]
  by_cases h1 : List.zipWith (· &&& ·) (payload.take 3) [0xff, 0xff, 0xff] = [0x09, 0x06, 0x12]
  · simp [h1, JR_VISCA_MESSAGE_PAN_TILT_POSITION_INQ]
  · by_cases h2 : List.zipWith (· &&& ·) (payload.take 9)
          [0xff, 0xf0, 0xf0, 0xf0, 0xf0, 0xf0, 0xf0, 0xf0, 0xf0]
          = [0x50, 0x00, 0x00, 0x00, 0x00, 0x00, 0x00, 0x00, 0x00]
    · simp [h1, h2, JR_VISCA_MESSAGE_PAN_TILT_POSITION_INQ_RESPONSE]
    · by_cases h3 : List.zipWith (· &&& ·) (payload.take 3) [0xff, 0xff, 0xff] = [0x09, 0x04, 0x47]
      · simp [h1, h2, h3, JR_VISCA_MESSAGE_ZOOM_POSITION_INQ]
      · simp [h1, h2, h3]

/-- The comparison of `jr_viscaDecodeFrame` fails as soon as the first masked byte differs from
the first signature byte, whatever the other bytes compared are. -/
theorem memcmp_head_ne (MAX : Nat) (x m z g : Nat) (xs ms zs gs : List Nat) (L n : Nat)
    (hne : x &&& m ≠ g) :
    memcmpEq (_jr_viscaMemAnd (x :: xs) (arrayInit MAX (m :: ms)) (z :: zs) (L + 1))
      (arrayInit MAX (g :: gs)) (n + 1) = false := by
  simp [memcmpEq, arrayInit, _jr_viscaMemAnd, hne]

/-- The decoder on a frame whose payload has at least three bytes, the first of which is not
`0x50` under the mask `0xff`: the nine-byte entry is skipped whatever the scratch array holds. -/
theorem decode_of_three (MAX : Nat) (frame : jr_viscaFrame)
    (params : jr_viscaMessageParameters) (scratch : Nat → List Nat)
    (hmax : 9 ≤ MAX) (hcap : frame.data.length = MAX) (hscr : ∀ i, (scratch i).length = MAX)
    (hL : 3 ≤ frame.dataLength)
    (hhead : frame.data.getD 0 0 &&& 0xff ≠ 0x50) :
    jr_viscaDecodeFrame MAX frame params scratch =
      if List.zipWith (· &&& ·) (frame.data.take 3) [0xff, 0xff, 0xff] == [0x09, 0x06, 0x12] then
        some (1, params)
      else if List.zipWith (· &&& ·) (frame.data.take 3) [0xff, 0xff, 0xff] == [0x09, 0x04, 0x47] then
        some (0x947, params)
      else some (-1, params) := by
  unfold jr_viscaDecodeFrame definitions
  simp only [decodeLoop]
  rw [memcmp_memAnd MAX frame.data (scratch 0) [0x09, 0x06, 0x12] [0xff, 0xff, 0xff] frame.dataLength 3 rfl rfl (by omega) (by omega)
    hcap (hscr 0)]
  rw [memcmp_memAnd MAX frame.data (scratch (0 + 1 + 1)) [0x09, 0x04, 0x47] [0xff, 0xff, 0xff] frame.dataLength 3 rfl rfl (by omega)
    (by omega) hcap (hscr _)]
  have h9 : memcmpEq (_jr_viscaMemAnd frame.data
      (arrayInit MAX [0xff, 0xf0, 0xf0, 0xf0, 0xf0, 0xf0, 0xf0, 0xf0, 0xf0]) (scratch (0 + 1))
      frame.dataLength) (arrayInit MAX [0x50, 0x00, 0x00, 0x00, 0x00, 0x00, 0x00, 0x00, 0x00]) 9
      = false := by
    have hs := hscr (0 + 1)
    obtain ⟨L, hLeq⟩ : ∃ L, frame.dataLength = L + 1 := ⟨frame.dataLength - 1, by omega⟩
    rw [hLeq]
    cases hd : frame.data with
    | nil => rw [hd] at hcap; simp at hcap; omega
    | cons x xs =>
      cases hz : scratch (0 + 1) with
      | nil => rw [hz] at hs; simp at hs; omega
      | cons z zs =>
        apply memcmp_head_ne
        rw [hd] at hhead
        simpa using hhead
  rw [h9]
  simp [callHandler, JR_VISCA_MESSAGE_PAN_TILT_POSITION_INQ, JR_VISCA_MESSAGE_ZOOM_POSITION_INQ]

/-- The decoder on a frame with a non-empty payload whose first byte is neither `0x09` nor
`0x50` under the mask `0xff`: no entry matches, whatever the scratch array holds. -/
theorem decode_of_head (MAX : Nat) (frame : jr_viscaFrame)
    (params : jr_viscaMessageParameters) (scratch : Nat → List Nat)
    (hmax : 9 ≤ MAX) (hcap : frame.data.length = MAX) (hscr : ∀ i, (scratch i).length = MAX)
    (hL : 1 ≤ frame.dataLength)
    (h50 : frame.data.getD 0 0 &&& 0xff ≠ 0x50) (h09 : frame.data.getD 0 0 &&& 0xff ≠ 0x09) :
    jr_viscaDecodeFrame MAX frame params scratch = some (-1, params) := by
  obtain ⟨L, hLeq⟩ : ∃ L, frame.dataLength = L + 1 := ⟨frame.dataLength - 1, by omega⟩
  cases hd : frame.data with
  | nil => rw [hd] at hcap; simp at hcap; omega
  | cons x xs =>
    rw [hd] at h50 h09
    simp at h50 h09
    have key : ∀ (i : Nat) (m g : Nat) (ms gs : List Nat) (n : Nat), x &&& m ≠ g →
        memcmpEq (_jr_viscaMemAnd (x :: xs) (arrayInit MAX (m :: ms)) (scratch i) (L + 1))
          (arrayInit MAX (g :: gs)) (n + 1) = false := by
      intro i m g ms gs n hne
      have hs := hscr i
      cases hz : scratch i with
      | nil => rw [hz] at hs; simp at hs; omega
      | cons z zs => exact memcmp_head_ne MAX x m z g xs ms zs gs L n hne
    unfold jr_viscaDecodeFrame definitions
    simp only [decodeLoop, hd, hLeq]
    rw [key 0 0xff 0x09 _ _ 2 h09, key (0 + 1) 0xff 0x50 _ _ 8 h50, key (0 + 1 + 1) 0xff 0x09 _ _ 2 h09]
    simp

theorem nat_and_255 (n : Nat) : n &&& 0xff = n % 256 :=
  Nat.and_pow_two_sub_one_eq_mod n 8

/-- Claim C3. For a frame whose payload length `L` satisfies
`9 ≤ L ≤ JR_VISCA_MAX_FRAME_DATA_LENGTH`, `jr_viscaDecodeFrame` returns the kind given by the
reference decoder: the `commandType` of the first table entry, terminator excluded, that
matches the payload under its mask, and `-1` exactly when no entry matches. The payload bytes
at index `signatureLength` and beyond play no part: a second frame that agrees with the first on
the first `signatureLength` bytes of the entry matched decodes to the same kind. A payload
starting `09 06 12` decodes to `JR_VISCA_MESSAGE_PAN_TILT_POSITION_INQ` whatever follows, and
one starting `09 06 13` decodes to `-1`. -/
theorem decode_first_match (MAX : Nat) (frame : jr_viscaFrame)
    (params : jr_viscaMessageParameters) (scratch : Nat → List Nat)
    (hcap : frame.data.length = MAX) (hscr : ∀ i, (scratch i).length = MAX)
    (hL : 9 ≤ frame.dataLength) (hL2 : frame.dataLength ≤ MAX) :
    (∃ q, jr_viscaDecodeFrame MAX frame params scratch =
      some (decodeReference (definitions MAX) (frame.data.take frame.dataLength), q)) ∧
    ((∃ q, jr_viscaDecodeFrame MAX frame params scratch = some (-1, q)) ↔
      ∀ e, e ∈ tableEntries (definitions MAX) →
        ¬ signatureMatches (frame.data.take frame.dataLength) e) ∧
    (∀ (frame2 : jr_viscaFrame) (params2 : jr_viscaMessageParameters)
      (scratch2 : Nat → List Nat) (e : jr_viscaMessageDefinition),
      frame2.data.length = MAX → (∀ i, (scratch2 i).length = MAX) →
      9 ≤ frame2.dataLength → frame2.dataLength ≤ MAX →
      (tableEntries (definitions MAX)).find?
        (fun d => decide (signatureMatches (frame.data.take frame.dataLength) d)) = some e →
      frame2.data.take e.signatureLength = frame.data.take e.signatureLength →
      ∃ q2, jr_viscaDecodeFrame MAX frame2 params2 scratch2 = some (e.commandType, q2)) ∧
    (∀ (s r : Nat) (tail : List Nat) (L : Nat), (0x09 :: 0x06 :: 0x12 :: tail).length = MAX →
      3 ≤ L → L ≤ MAX →
      jr_viscaDecodeFrame MAX ⟨s, r, 0x09 :: 0x06 :: 0x12 :: tail, L⟩ params scratch
        = some (JR_VISCA_MESSAGE_PAN_TILT_POSITION_INQ, params)) ∧
    (∀ (s r : Nat) (tail : List Nat) (L : Nat), (0x09 :: 0x06 :: 0x13 :: tail).length = MAX →
      3 ≤ L → L ≤ MAX →
      jr_viscaDecodeFrame MAX ⟨s, r, 0x09 :: 0x06 :: 0x13 :: tail, L⟩ params scratch
        = some (-1, params)) := by
  have hmax : 9 ≤ MAX := by omega
  have hplen : 9 ≤ (frame.data.take frame.dataLength).length := by
    simp only [List.length_take]; omega
  have ht3 : (frame.data.take frame.dataLength).take 3 = frame.data.take 3 := by
    rw [List.take_take, show min 3 frame.dataLength = 3 by omega]
  have ht9 : (frame.data.take frame.dataLength).take 9 = frame.data.take 9 := by
    rw [List.take_take, show min 9 frame.dataLength = 9 by omega]
  have hcode := decode_of_long MAX frame params scratch hcap hscr hL hL2
  have href := decodeReference_of_long MAX _ hplen
  have e1 := signatureMatches_iff MAX (frame.data.take frame.dataLength) [0x09, 0x06, 0x12]
    [0xff, 0xff, 0xff] 3 JR_VISCA_MESSAGE_PAN_TILT_POSITION_INQ .NULL rfl rfl (by omega)
  have e2 := signatureMatches_iff MAX (frame.data.take frame.dataLength)
    [0x50, 0x00, 0x00, 0x00, 0x00, 0x00, 0x00, 0x00, 0x00]
    [0xff, 0xf0, 0xf0, 0xf0, 0xf0, 0xf0, 0xf0, 0xf0, 0xf0] 9
    JR_VISCA_MESSAGE_PAN_TILT_POSITION_INQ_RESPONSE .handlePanTiltPositionInqResponseParameters
    rfl rfl (by omega)
  have e3 := signatureMatches_iff MAX (frame.data.take frame.dataLength) [0x09, 0x04, 0x47]
    [0xff, 0xff, 0xff] 3 JR_VISCA_MESSAGE_ZOOM_POSITION_INQ .NULL rfl rfl (by omega)
  rw [ht3] at href e1 e3
  rw [ht9] at href e2
  simp only [beq_iff_eq] at hcode
  refine ⟨?_, ?_, ?_, ?_, ?_⟩
  · rw [hcode, href]
    split
    · exact ⟨_, rfl⟩
    · split
      · exact ⟨_, rfl⟩
      · split
        · exact ⟨_, rfl⟩
        · exact ⟨_, rfl⟩
  · rw [tableEntries_definitions]
    unfold definitions
    simp only [List.take, List.mem_cons, List.mem_nil_iff, or_false, forall_eq_or_imp, forall_eq,
      e1, e2, e3]
    rw [hcode]
    constructor
    · rintro ⟨q, hq⟩
      split at hq
      · simp at hq
      · split at hq
        · simp at hq
        · split at hq
          · simp at hq
          · exact ⟨by assumption, by assumption, by assumption⟩
    · rintro ⟨h1, h2, h3⟩
      exact ⟨params, by rw [if_neg h1, if_neg h2, if_neg h3]⟩
  · intro frame2 params2 scratch2 e hcap2 hscr2 hL' hL2' hfind hagree
    have hcode2 := decode_of_long MAX frame2 params2 scratch2 hcap2 hscr2 hL' hL2'
    simp only [beq_iff_eq] at hcode2
    rw [tableEntries_definitions] at hfind
    unfold definitions at hfind
    simp only [List.take, List.find?, e1, e2, e3] at hfind
    have ht39 : ∀ l l2 : List Nat, l2.take 9 = l.take 9 → l2.take 3 = l.take 3 := by
      intro l l2 h
      have := congrArg (List.take 3) h
      simpa [List.take_take] using this
    split at hfind
    · rename_i h1
      have c1 := of_decide_eq_true h1
      injection hfind with hfind
      subst hfind
      simp only at hagree
      rw [hcode2, hagree, if_pos c1]
      exact ⟨_, rfl⟩
    · rename_i h1
      have c1 := of_decide_eq_false h1
      split at hfind
      · rename_i h2
        have c2 := of_decide_eq_true h2
        injection hfind with hfind
        subst hfind
        simp only at hagree
        rw [hcode2, ht39 _ _ hagree, hagree, if_neg c1, if_pos c2]
        exact ⟨_, rfl⟩
      · rename_i h2
        have c2 := of_decide_eq_false h2
        split at hfind
        · rename_i h3
          have c3 := of_decide_eq_true h3
          injection hfind with hfind
          subst hfind
          simp only at hagree
          have c2' : ¬ (List.zipWith (· &&& ·) (frame2.data.take 9)
              [0xff, 0xf0, 0xf0, 0xf0, 0xf0, 0xf0, 0xf0, 0xf0, 0xf0]
              = [0x50, 0x00, 0x00, 0x00, 0x00, 0x00, 0x00, 0x00, 0x00]) := by
            intro hc
            rw [← hagree] at c3
            obtain ⟨b0, b1, b2, b3, b4, b5, b6, b7, b8, brest, hb⟩ :=
              exists_nine frame2.data (by omega)
            rw [hb] at hc c3
            simp only [List.take, List.zipWith, List.cons.injEq] at hc c3
            have h80 := hc.1
            have h09 := c3.1
            omega
          rw [hcode2, hagree, if_neg c1, if_neg c2', if_pos c3]
          exact ⟨_, rfl⟩
        · simp at hfind
  · intro s r tail L hlen h3 hLmax
    rw [decode_of_three MAX _ params scratch hmax hlen hscr h3 (by simp [nat_and_255])]
    simp [JR_VISCA_MESSAGE_PAN_TILT_POSITION_INQ, nat_and_255]
  · intro s r tail L hlen h3 hLmax
    rw [decode_of_three MAX _ params scratch hmax hlen hscr h3 (by simp [nat_and_255])]
    simp [nat_and_255]

/-- Concrete instance: capacity 16 and the nine-byte payload
`50 01 02 00 03 04 00 05 06`. -/
theorem decode_first_match_witness :
    ∃ q, jr_viscaDecodeFrame 16
        ⟨0, 1, [0x50, 1, 2, 0, 3, 4, 0, 5, 6, 0, 0, 0, 0, 0, 0, 0], 9⟩ ⟨0, 0⟩
        (fun _ => List.replicate 16 0)
      = some (decodeReference (definitions 16)
          ([0x50, 1, 2, 0, 3, 4, 0, 5, 6, 0, 0, 0, 0, 0, 0, 0].take 9), q) :=
  (decode_first_match 16 ⟨0, 1, [0x50, 1, 2, 0, 3, 4, 0, 5, 6, 0, 0, 0, 0, 0, 0, 0], 9⟩ ⟨0, 0⟩
    (fun _ => List.replicate 16 0) (by decide) (by intro i; simp) (by decide) (by decide)).1

theorem land_15_toNat_lt (x : Int) : (Int.land x 0xf).toNat < 16 := by
  rw [int_land_15]
  omega

theorem or_zero_nibble (x : Int) :
    (0 ||| (Int.land x 0xf).toNat) % 256 = (Int.land x 0xf).toNat := by
  rw [Nat.zero_or]
  exact Nat.mod_eq_of_lt (by have := land_15_toNat_lt x; omega)

theorem land_15_toNat_lt_256 (x : Int) : (Int.land x 15).toNat < 256 := by
  have := land_15_toNat_lt x
  omega

theorem memcpy_arrayInit (MAX : Nat) (dest init : List Nat) (hcap : dest.length = MAX)
    (h : init.length ≤ MAX) :
    memcpy dest (arrayInit MAX init) init.length = init ++ dest.drop init.length := by
  rw [memcpy_eq _ _ _ (by omega) (by rw [arrayInit_length _ _ h]; exact h), arrayInit_take]

/-- The encoder on `JR_VISCA_MESSAGE_PAN_TILT_POSITION_INQ_RESPONSE`. -/
theorem encode_response (MAX : Nat) (hmax : 9 ≤ MAX) (p t : Int) (frame : jr_viscaFrame)
    (hcap : frame.data.length = MAX) :
    jr_viscaEncodeFrame MAX JR_VISCA_MESSAGE_PAN_TILT_POSITION_INQ_RESPONSE ⟨p, t⟩ frame =
      some (0, { sender := frame.sender
                 receiver := frame.receiver
                 data := [0x50, (Int.land (p >>> (12 : Nat)) 0xf).toNat,
                   (Int.land (p >>> (8 : Nat)) 0xf).toNat,
                   (Int.land (p >>> (4 : Nat)) 0xf).toNat, (Int.land p 0xf).toNat,
                   (Int.land (t >>> (12 : Nat)) 0xf).toNat,
                   (Int.land (t >>> (8 : Nat)) 0xf).toNat,
                   (Int.land (t >>> (4 : Nat)) 0xf).toNat, (Int.land t 0xf).toNat]
                   ++ frame.data.drop 9
                 dataLength := 9 }) := by
  unfold jr_viscaEncodeFrame definitions
  have hc := memcpy_arrayInit MAX frame.data [0x50, 0x00, 0x00, 0x00, 0x00, 0x00, 0x00, 0x00, 0x00]
    hcap hmax
  rw [show [0x50, 0x00, 0x00, 0x00, 0x00, 0x00, 0x00, 0x00, 0x00].length = 9 from rfl] at hc
  simp only [encodeLoop, JR_VISCA_MESSAGE_PAN_TILT_POSITION_INQ_RESPONSE,
    JR_VISCA_MESSAGE_PAN_TILT_POSITION_INQ]
  norm_num
  rw [hc]
  simp [callHandler, jr_visca_handlePanTiltPositionInqResponseParameters,
    _jr_viscaWrite16ToBuffer, orByte, or_zero_nibble, land_15_toNat_lt_256]

/-- The encoder on `JR_VISCA_MESSAGE_PAN_TILT_POSITION_INQ`. -/
theorem encode_panTiltInq (MAX : Nat) (hmax : 9 ≤ MAX) (params : jr_viscaMessageParameters)
    (frame : jr_viscaFrame) (hcap : frame.data.length = MAX) :
    jr_viscaEncodeFrame MAX JR_VISCA_MESSAGE_PAN_TILT_POSITION_INQ params frame =
      some (0, { sender := frame.sender
                 receiver := frame.receiver
                 data := [0x09, 0x06, 0x12] ++ frame.data.drop 3
                 dataLength := 3 }) := by
  unfold jr_viscaEncodeFrame definitions
  have hc := memcpy_arrayInit MAX frame.data [0x09, 0x06, 0x12] hcap (by simp; omega)
  rw [show [0x09, 0x06, 0x12].length = 3 from rfl] at hc
  simp only [encodeLoop, JR_VISCA_MESSAGE_PAN_TILT_POSITION_INQ]
  norm_num
  rw [hc]
  simp [callHandler]

/-- The encoder on `JR_VISCA_MESSAGE_ZOOM_POSITION_INQ`. -/
theorem encode_zoomInq (MAX : Nat) (hmax : 9 ≤ MAX) (params : jr_viscaMessageParameters)
    (frame : jr_viscaFrame) (hcap : frame.data.length = MAX) :
    jr_viscaEncodeFrame MAX JR_VISCA_MESSAGE_ZOOM_POSITION_INQ params frame =
      some (0, { sender := frame.sender
                 receiver := frame.receiver
                 data := [0x09, 0x04, 0x47] ++ frame.data.drop 3
                 dataLength := 3 }) := by
  unfold jr_viscaEncodeFrame definitions
  have hc := memcpy_arrayInit MAX frame.data [0x09, 0x04, 0x47] hcap (by simp; omega)
  rw [show [0x09, 0x04, 0x47].length = 3 from rfl] at hc
  simp only [encodeLoop, JR_VISCA_MESSAGE_PAN_TILT_POSITION_INQ,
    JR_VISCA_MESSAGE_PAN_TILT_POSITION_INQ_RESPONSE, JR_VISCA_MESSAGE_ZOOM_POSITION_INQ]
  norm_num
  rw [hc]
  simp [callHandler]

/-- Claim C4. `jr_viscaEncodeFrame` on `JR_VISCA_MESSAGE_PAN_TILT_POSITION_INQ_RESPONSE` with
parameters `p`, `t` returns `0`, sets `dataLength = 9` and the payload
`50, (p>>12)&0xF, (p>>8)&0xF, (p>>4)&0xF, p&0xF, (t>>12)&0xF, (t>>8)&0xF, (t>>4)&0xF, t&0xF`;
on the two kinds without parameters it returns `0`, sets `dataLength = 3` and the payload
`09 06 12` (`JR_VISCA_MESSAGE_PAN_TILT_POSITION_INQ`) or `09 04 47`
(`JR_VISCA_MESSAGE_ZOOM_POSITION_INQ`); return value, length and payload are the same for any
two frames given as output, so they do not depend on the frame's previous content. -/
theorem encode_payload (MAX : Nat) (hmax : 9 ≤ MAX) (p t : Int)
    (params : jr_viscaMessageParameters) (frame frame2 : jr_viscaFrame)
    (hcap : frame.data.length = MAX) (hcap2 : frame2.data.length = MAX) :
    (∃ f, jr_viscaEncodeFrame MAX JR_VISCA_MESSAGE_PAN_TILT_POSITION_INQ_RESPONSE ⟨p, t⟩ frame
        = some (0, f) ∧ f.dataLength = 9 ∧
      f.data.take f.dataLength =
        [0x50, (Int.land (p >>> (12 : Nat)) 0xf).toNat,
          (Int.land (p >>> (8 : Nat)) 0xf).toNat,
          (Int.land (p >>> (4 : Nat)) 0xf).toNat, (Int.land p 0xf).toNat,
          (Int.land (t >>> (12 : Nat)) 0xf).toNat,
          (Int.land (t >>> (8 : Nat)) 0xf).toNat,
          (Int.land (t >>> (4 : Nat)) 0xf).toNat, (Int.land t 0xf).toNat]) ∧
    (∃ f, jr_viscaEncodeFrame MAX JR_VISCA_MESSAGE_PAN_TILT_POSITION_INQ params frame
        = some (0, f) ∧ f.dataLength = 3 ∧ f.data.take f.dataLength = [0x09, 0x06, 0x12]) ∧
    (∃ f, jr_viscaEncodeFrame MAX JR_VISCA_MESSAGE_ZOOM_POSITION_INQ params frame
        = some (0, f) ∧ f.dataLength = 3 ∧ f.data.take f.dataLength = [0x09, 0x04, 0x47]) ∧
    (∀ kind, kind = JR_VISCA_MESSAGE_PAN_TILT_POSITION_INQ ∨
        kind = JR_VISCA_MESSAGE_PAN_TILT_POSITION_INQ_RESPONSE ∨
        kind = JR_VISCA_MESSAGE_ZOOM_POSITION_INQ →
      ∃ f f2, jr_viscaEncodeFrame MAX kind params frame = some (0, f) ∧
        jr_viscaEncodeFrame MAX kind params frame2 = some (0, f2) ∧
        f2.dataLength = f.dataLength ∧
        f2.data.take f2.dataLength = f.data.take f.dataLength) := by
  refine ⟨?_, ?_, ?_, ?_⟩
  · rw [encode_response MAX hmax p t frame hcap]
    exact ⟨_, rfl, rfl, by simp⟩
  · rw [encode_panTiltInq MAX hmax params frame hcap]
    exact ⟨_, rfl, rfl, by simp⟩
  · rw [encode_zoomInq MAX hmax params frame hcap]
    exact ⟨_, rfl, rfl, by simp⟩
  · intro kind hk
    rcases hk with hk | hk | hk
    · rw [hk, encode_panTiltInq MAX hmax params frame hcap,
        encode_panTiltInq MAX hmax params frame2 hcap2]
      exact ⟨_, _, rfl, rfl, rfl, by simp⟩
    · rw [hk, encode_response MAX hmax params.panPosition params.tiltPosition frame hcap,
        encode_response MAX hmax params.panPosition params.tiltPosition frame2 hcap2]
      exact ⟨_, _, rfl, rfl, rfl, by simp⟩
    · rw [hk, encode_zoomInq MAX hmax params frame hcap,
        encode_zoomInq MAX hmax params frame2 hcap2]
      exact ⟨_, _, rfl, rfl, rfl, by simp⟩

/-- Concrete instance: capacity 16, pan `0x1203`, tilt `0x4056`. -/
theorem encode_payload_witness :
    ∃ f, jr_viscaEncodeFrame 16 JR_VISCA_MESSAGE_PAN_TILT_POSITION_INQ_RESPONSE
        ⟨0x1203, 0x4056⟩ ⟨0, 0, List.replicate 16 0xaa, 0⟩ = some (0, f) ∧ f.dataLength = 9 ∧
      f.data.take f.dataLength =
        [0x50, (Int.land ((0x1203 : Int) >>> (12 : Nat)) 0xf).toNat,
          (Int.land ((0x1203 : Int) >>> (8 : Nat)) 0xf).toNat,
          (Int.land ((0x1203 : Int) >>> (4 : Nat)) 0xf).toNat, (Int.land (0x1203 : Int) 0xf).toNat,
          (Int.land ((0x4056 : Int) >>> (12 : Nat)) 0xf).toNat,
          (Int.land ((0x4056 : Int) >>> (8 : Nat)) 0xf).toNat,
          (Int.land ((0x4056 : Int) >>> (4 : Nat)) 0xf).toNat, (Int.land (0x4056 : Int) 0xf).toNat] :=
  (encode_payload 16 (by decide) 0x1203 0x4056 ⟨0, 0⟩ ⟨0, 0, List.replicate 16 0xaa, 0⟩
    ⟨1, 2, List.replicate 16 0xbb, 5⟩ (by decide) (by decide)).1

theorem nibble_and_240 (n : Nat) (h : n < 16) : n &&& 0xf0 = 0 := by
  interval_cases n <;> decide

theorem land_15_and_240 (x : Int) : (Int.land x 0xf).toNat &&& 240 = 0 :=
  nibble_and_240 _ (land_15_toNat_lt x)

theorem land_15_and_15 (x : Int) : (Int.land x 0xf).toNat &&& 15 = (Int.land x 0xf).toNat := by
  rw [show (15 : Nat) = 0xf from rfl, nat_and_15]
  exact Nat.mod_eq_of_lt (land_15_toNat_lt x)

theorem getD_append_add (pre l : List Nat) (k : Nat) :
    (pre ++ l).getD (pre.length + k) 0 = l.getD k 0 := by
  rw [List.getD_append_right _ _ _ _ (by omega)]
  congr 1
  omega

theorem toInt16_chain (a b c d : Int) :
    toInt16 (toInt16 (toInt16 (toInt16 (0 + a) + b) + c) + d) = toInt16 (a + b + c + d) := by
  unfold toInt16
  omega

/-- Reading back the four nibbles of a 16-bit value gives the value. -/
theorem read16_of_nibbles (v : Int) (hv : -32768 ≤ v ∧ v ≤ 32767) (pre post : List Nat)
    (b : Nat) (hb : pre.length = b) :
    _jr_viscaRead16FromBuffer (pre ++ ([(Int.land (v >>> (12 : Nat)) 0xf).toNat,
      (Int.land (v >>> (8 : Nat)) 0xf).toNat, (Int.land (v >>> (4 : Nat)) 0xf).toNat,
      (Int.land v 0xf).toNat] ++ post)) b = v := by
  subst hb
  unfold _jr_viscaRead16FromBuffer
  simp only [getD_append_add]
  simp only [List.cons_append, List.nil_append, List.getD_cons_zero, List.getD_cons_succ,
    land_15_and_15]
  have h0 : ((Int.land v 0xf).toNat : Int) = v % 16 := by
    rw [int_land_15]; omega
  have h1 : ((Int.land (v >>> (4 : Nat)) 0xf).toNat : Int) = (v / 16) % 16 := by
    rw [int_land_15, Int.shiftRight_eq_div_pow]; norm_num; omega
  have h2 : ((Int.land (v >>> (8 : Nat)) 0xf).toNat : Int) = (v / 256) % 16 := by
    rw [int_land_15, Int.shiftRight_eq_div_pow]; norm_num; omega
  have h3 : ((Int.land (v >>> (12 : Nat)) 0xf).toNat : Int) = (v / 4096) % 16 := by
    rw [int_land_15, Int.shiftRight_eq_div_pow]; norm_num; omega
  rw [toInt16_chain]
  simp only [Nat.cast_mul, Nat.cast_ofNat, h0, h1, h2, h3]
  unfold toInt16
  omega

/-- Decoding the frame the encoder produces for
`JR_VISCA_MESSAGE_PAN_TILT_POSITION_INQ_RESPONSE`. -/
theorem decode_encoded_response (MAX : Nat) (hmax : 9 ≤ MAX) (p t : Int)
    (hp : -32768 ≤ p ∧ p ≤ 32767) (ht : -32768 ≤ t ∧ t ≤ 32767) (s r : Nat) (old : List Nat)
    (hold : old.length = MAX) (params0 : jr_viscaMessageParameters) (scratch : Nat → List Nat)
    (hscr : ∀ i, (scratch i).length = MAX) :
    jr_viscaDecodeFrame MAX
      { sender := s
        receiver := r
        data := [0x50, (Int.land (p >>> (12 : Nat)) 0xf).toNat,
          (Int.land (p >>> (8 : Nat)) 0xf).toNat, (Int.land (p >>> (4 : Nat)) 0xf).toNat,
          (Int.land p 0xf).toNat, (Int.land (t >>> (12 : Nat)) 0xf).toNat,
          (Int.land (t >>> (8 : Nat)) 0xf).toNat, (Int.land (t >>> (4 : Nat)) 0xf).toNat,
          (Int.land t 0xf).toNat] ++ old.drop 9
        dataLength := 9 } params0 scratch
      = some (JR_VISCA_MESSAGE_PAN_TILT_POSITION_INQ_RESPONSE, ⟨p, t⟩) := by
  rw [decode_of_long MAX _ params0 scratch (by simp; omega) hscr (by simp) (by simpa using hmax)]
  have hpan := read16_of_nibbles p hp [0x50]
    ([(Int.land (t >>> (12 : Nat)) 0xf).toNat,
      (Int.land (t >>> (8 : Nat)) 0xf).toNat, (Int.land (t >>> (4 : Nat)) 0xf).toNat,
      (Int.land t 0xf).toNat] ++ old.drop 9) 1 rfl
  have htilt := read16_of_nibbles t ht [0x50, (Int.land (p >>> (12 : Nat)) 0xf).toNat,
      (Int.land (p >>> (8 : Nat)) 0xf).toNat, (Int.land (p >>> (4 : Nat)) 0xf).toNat,
      (Int.land p 0xf).toNat] (old.drop 9) 5 rfl
  simp only [List.cons_append, List.nil_append] at hpan htilt ⊢
  rw [hpan, htilt]
  simp [nat_and_255, land_15_and_240, JR_VISCA_MESSAGE_PAN_TILT_POSITION_INQ_RESPONSE]

/-- Claim C1. For each kind with a table entry (`JR_VISCA_MESSAGE_PAN_TILT_POSITION_INQ`,
`JR_VISCA_MESSAGE_PAN_TILT_POSITION_INQ_RESPONSE`, `JR_VISCA_MESSAGE_ZOOM_POSITION_INQ`), every
pair of signed 16-bit values `panPosition`, `tiltPosition` and every initial content of the
output frame, `jr_viscaEncodeFrame` returns `0` and `jr_viscaDecodeFrame` on the frame it
produced returns the same kind; for the response kind the decoded `panPosition` and
`tiltPosition` are the encoded ones. `JR_VISCA_MAX_FRAME_DATA_LENGTH` is at least 9. -/
theorem encode_decode_roundtrip (MAX : Nat) (hmax : 9 ≤ MAX) (kind : Int)
    (hkind : kind = JR_VISCA_MESSAGE_PAN_TILT_POSITION_INQ ∨
      kind = JR_VISCA_MESSAGE_PAN_TILT_POSITION_INQ_RESPONSE ∨
      kind = JR_VISCA_MESSAGE_ZOOM_POSITION_INQ)
    (p t : Int) (hp : -32768 ≤ p ∧ p ≤ 32767) (ht : -32768 ≤ t ∧ t ≤ 32767)
    (frame : jr_viscaFrame) (hcap : frame.data.length = MAX)
    (params0 : jr_viscaMessageParameters) (scratch : Nat → List Nat)
    (hscr : ∀ i, (scratch i).length = MAX) :
    ∃ f, jr_viscaEncodeFrame MAX kind ⟨p, t⟩ frame = some (0, f) ∧
      ∃ q, jr_viscaDecodeFrame MAX f params0 scratch = some (kind, q) ∧
        (kind = JR_VISCA_MESSAGE_PAN_TILT_POSITION_INQ_RESPONSE →
          q.panPosition = p ∧ q.tiltPosition = t) := by
  rcases hkind with hk | hk | hk
  · subst hk
    rw [encode_panTiltInq MAX hmax _ frame hcap]
    refine ⟨_, rfl, params0, ?_, ?_⟩
    · rw [decode_of_three MAX _ params0 scratch hmax (by simp; omega) hscr (by simp)
        (by simp [nat_and_255])]
      simp [nat_and_255, JR_VISCA_MESSAGE_PAN_TILT_POSITION_INQ]
    · intro h
      simp [JR_VISCA_MESSAGE_PAN_TILT_POSITION_INQ,
        JR_VISCA_MESSAGE_PAN_TILT_POSITION_INQ_RESPONSE] at h
  · subst hk
    rw [encode_response MAX hmax p t frame hcap]
    refine ⟨_, rfl, ⟨p, t⟩, ?_, ?_⟩
    · exact decode_encoded_response MAX hmax p t hp ht _ _ frame.data hcap params0 scratch hscr
    · intro _
      exact ⟨rfl, rfl⟩
  · subst hk
    rw [encode_zoomInq MAX hmax _ frame hcap]
    refine ⟨_, rfl, params0, ?_, ?_⟩
    · rw [decode_of_three MAX _ params0 scratch hmax (by simp; omega) hscr (by simp)
        (by simp [nat_and_255])]
      simp [nat_and_255, JR_VISCA_MESSAGE_ZOOM_POSITION_INQ]
    · intro h
      simp [JR_VISCA_MESSAGE_ZOOM_POSITION_INQ,
        JR_VISCA_MESSAGE_PAN_TILT_POSITION_INQ_RESPONSE] at h

/-- Concrete instance: capacity 16, pan `0x1203`, tilt `0x4056`. -/
theorem encode_decode_roundtrip_witness :
    ∃ f, jr_viscaEncodeFrame 16 JR_VISCA_MESSAGE_PAN_TILT_POSITION_INQ_RESPONSE
        ⟨0x1203, 0x4056⟩ ⟨0, 0, List.replicate 16 0xaa, 0⟩ = some (0, f) ∧
      ∃ q, jr_viscaDecodeFrame 16 f ⟨0, 0⟩ (fun _ => List.replicate 16 0x12)
          = some (JR_VISCA_MESSAGE_PAN_TILT_POSITION_INQ_RESPONSE, q) ∧
        (JR_VISCA_MESSAGE_PAN_TILT_POSITION_INQ_RESPONSE
            = JR_VISCA_MESSAGE_PAN_TILT_POSITION_INQ_RESPONSE →
          q.panPosition = 0x1203 ∧ q.tiltPosition = 0x4056) :=
  encode_decode_roundtrip 16 (by decide) JR_VISCA_MESSAGE_PAN_TILT_POSITION_INQ_RESPONSE
    (Or.inr (Or.inl rfl)) 0x1203 0x4056 (by decide) (by decide)
    ⟨0, 0, List.replicate 16 0xaa, 0⟩ (by decide) ⟨0, 0⟩ (fun _ => List.replicate 16 0x12)
    (by intro i; simp)

/-- Claim C9, refuted as stated: with `JR_VISCA_MAX_FRAME_DATA_LENGTH = 16`,
`jr_viscaDataToFrame` on `09 06 12 ff` consumes 4 bytes but takes `09` as the header, so the
extracted payload is `06 12` and `jr_viscaDecodeFrame` returns `-1`, not
`JR_VISCA_MESSAGE_PAN_TILT_POSITION_INQ`. -/
theorem inquiry_scenario_unrecognized :
    (jr_viscaDataToFrame 16 [0x09, 0x06, 0x12, 0xff] ⟨0, 0, List.replicate 16 0, 0⟩).1 = 4 ∧
    (jr_viscaDecodeFrame 16
      (jr_viscaDataToFrame 16 [0x09, 0x06, 0x12, 0xff] ⟨0, 0, List.replicate 16 0, 0⟩).2
      ⟨0, 0⟩ (fun _ => List.replicate 16 0)).map Prod.fst = some (-1) ∧
    (jr_viscaDecodeFrame 16
      (jr_viscaDataToFrame 16 [0x09, 0x06, 0x12, 0xff] ⟨0, 0, List.replicate 16 0, 0⟩).2
      ⟨0, 0⟩ (fun _ => List.replicate 16 0)).map Prod.fst
        ≠ some JR_VISCA_MESSAGE_PAN_TILT_POSITION_INQ := by
  refine ⟨by decide, by decide, by decide⟩

/-- Claim C9, amended. `jr_viscaDataToFrame` on the four bytes `09 06 12 ff` consumes 4 bytes
and takes `09` as the header byte: the frame has sender 0, receiver 1 and the two-byte payload
`06 12`, on which `jr_viscaDecodeFrame` returns `-1` (unrecognized) with no parameters
written. With a header byte in front, on the five bytes `81 09 06 12 ff`, it consumes 5 bytes
and `jr_viscaDecodeFrame` on the extracted frame returns
`JR_VISCA_MESSAGE_PAN_TILT_POSITION_INQ` with no parameters written. -/
theorem inquiry_scenario (MAX : Nat) (hmax : 9 ≤ MAX) (frame : jr_viscaFrame)
    (hcap : frame.data.length = MAX) (params : jr_viscaMessageParameters)
    (scratch : Nat → List Nat) (hscr : ∀ i, (scratch i).length = MAX) :
    (jr_viscaDataToFrame MAX [0x09, 0x06, 0x12, 0xff] frame).1 = 4 ∧
    (jr_viscaDataToFrame MAX [0x09, 0x06, 0x12, 0xff] frame).2.sender = 0 ∧
    (jr_viscaDataToFrame MAX [0x09, 0x06, 0x12, 0xff] frame).2.receiver = 1 ∧
    (jr_viscaDataToFrame MAX [0x09, 0x06, 0x12, 0xff] frame).2.dataLength = 2 ∧
    (jr_viscaDataToFrame MAX [0x09, 0x06, 0x12, 0xff] frame).2.data.take 2 = [0x06, 0x12] ∧
    jr_viscaDecodeFrame MAX (jr_viscaDataToFrame MAX [0x09, 0x06, 0x12, 0xff] frame).2 params
      scratch = some (-1, params) ∧
    (jr_viscaDataToFrame MAX [0x81, 0x09, 0x06, 0x12, 0xff] frame).1 = 5 ∧
    jr_viscaDecodeFrame MAX (jr_viscaDataToFrame MAX [0x81, 0x09, 0x06, 0x12, 0xff] frame).2
      params scratch = some (JR_VISCA_MESSAGE_PAN_TILT_POSITION_INQ, params) := by
  have h4 := dataToFrame_of_first MAX [0x09, 0x06, 0x12, 0xff] frame 3 ⟨by decide, by decide⟩
  rw [if_neg (by omega), if_neg (by omega)] at h4
  have h5 := dataToFrame_of_first MAX [0x81, 0x09, 0x06, 0x12, 0xff] frame 4
    ⟨by decide, by decide⟩
  rw [if_neg (by omega), if_neg (by omega)] at h5
  have c4 : memcpy frame.data ([0x09, 0x06, 0x12, 0xff].drop 1) (3 - 1)
      = [0x06, 0x12] ++ frame.data.drop 2 :=
    memcpy_eq _ _ _ (by omega) (by decide)
  have c5 : memcpy frame.data ([0x81, 0x09, 0x06, 0x12, 0xff].drop 1) (4 - 1)
      = [0x09, 0x06, 0x12] ++ frame.data.drop 3 :=
    memcpy_eq _ _ _ (by omega) (by decide)
  rw [c4] at h4
  rw [c5] at h5
  rw [h4, h5]
  refine ⟨by norm_num, ?_, ?_, rfl, by simp, ?_, by norm_num, ?_⟩
  · show ([0x09, 0x06, 0x12, 0xff].getD 0 0 >>> 4) &&& 0x7 = 0
    decide
  · show [0x09, 0x06, 0x12, 0xff].getD 0 0 &&& 0x7 = 1
    decide
  · exact decode_of_head MAX _ params scratch hmax (by simp; omega) hscr (by simp)
      (by simp [nat_and_255]) (by simp [nat_and_255])
  · rw [decode_of_three MAX _ params scratch hmax (by simp; omega) hscr (by simp)
      (by simp [nat_and_255])]
    simp [nat_and_255, JR_VISCA_MESSAGE_PAN_TILT_POSITION_INQ]

/-- Concrete instance: capacity 16. -/
theorem inquiry_scenario_witness :
    (jr_viscaDataToFrame 16 [0x09, 0x06, 0x12, 0xff] ⟨7, 7, List.replicate 16 0xaa, 0⟩).1 = 4 ∧
    jr_viscaDecodeFrame 16
      (jr_viscaDataToFrame 16 [0x09, 0x06, 0x12, 0xff] ⟨7, 7, List.replicate 16 0xaa, 0⟩).2
      ⟨5, 6⟩ (fun _ => List.replicate 16 0x12) = some (-1, ⟨5, 6⟩) :=
  have h := inquiry_scenario 16 (by decide) ⟨7, 7, List.replicate 16 0xaa, 0⟩ (by decide)
    ⟨5, 6⟩ (fun _ => List.replicate 16 0x12) (by intro i; simp)
  ⟨h.1, h.2.2.2.2.2.1⟩

/-- Reading four bytes that hold one nibble each: the nibbles concatenated in order, as a
16-bit two's-complement value. -/
theorem read16_nibbles (pre post : List Nat) (a b c d : Nat) (ha : a < 16) (hb : b < 16)
    (hc : c < 16) (hd : d < 16) (n : Nat) (hn : pre.length = n) :
    _jr_viscaRead16FromBuffer (pre ++ ([a, b, c, d] ++ post)) n
      = toInt16 ((a * 0x1000 + b * 0x100 + c * 0x10 + d : Nat) : Int) := by
  subst hn
  unfold _jr_viscaRead16FromBuffer
  simp only [getD_append_add]
  simp only [List.cons_append, List.nil_append, List.getD_cons_zero, List.getD_cons_succ,
    nat_and_15, Nat.mod_eq_of_lt ha, Nat.mod_eq_of_lt hb, Nat.mod_eq_of_lt hc,
    Nat.mod_eq_of_lt hd]
  rw [toInt16_chain]
  push_cast
  rfl

/-- Extraction and decoding of `h 50 0a 0b 0c 0d 0e 0f 0g 0k ff`. -/
theorem response_frame (MAX : Nat) (hmax : 11 ≤ MAX) (h a b c d e f g k : Nat)
    (hh : h ≠ 0xff) (ha : a < 16) (hb : b < 16) (hc : c < 16) (hd : d < 16) (he : e < 16)
    (hf : f < 16) (hg : g < 16) (hk : k < 16) (frame : jr_viscaFrame)
    (hcap : frame.data.length = MAX) (params : jr_viscaMessageParameters)
    (scratch : Nat → List Nat) (hscr : ∀ i, (scratch i).length = MAX) :
    jr_viscaDataToFrame MAX [h, 0x50, a, b, c, d, e, f, g, k, 0xff] frame =
      (11, { sender := (h >>> 4) &&& 0x7
             receiver := h &&& 0x7
             data := [0x50, a, b, c, d, e, f, g, k] ++ frame.data.drop 9
             dataLength := 9 }) ∧
    jr_viscaDecodeFrame MAX (jr_viscaDataToFrame MAX [h, 0x50, a, b, c, d, e, f, g, k, 0xff]
      frame).2 params scratch =
      some (JR_VISCA_MESSAGE_PAN_TILT_POSITION_INQ_RESPONSE,
        ⟨toInt16 ((a * 0x1000 + b * 0x100 + c * 0x10 + d : Nat) : Int),
         toInt16 ((e * 0x1000 + f * 0x100 + g * 0x10 + k : Nat) : Int)⟩) := by
  have hfirst : FirstTerminatorAt [h, 0x50, a, b, c, d, e, f, g, k, 0xff] 10 := by
    refine ⟨rfl, ?_⟩
    intro j hj
    interval_cases j <;> simp <;> omega
  have hx := dataToFrame_of_first MAX _ frame 10 hfirst
  rw [if_neg (by omega), if_neg (by omega)] at hx
  have hcpy : memcpy frame.data ([h, 0x50, a, b, c, d, e, f, g, k, 0xff].drop 1) (10 - 1)
      = [0x50, a, b, c, d, e, f, g, k] ++ frame.data.drop 9 :=
    memcpy_eq _ _ _ (by omega) (by simp)
  rw [hcpy] at hx
  have hx2 : jr_viscaDataToFrame MAX [h, 0x50, a, b, c, d, e, f, g, k, 0xff] frame =
      (11, { sender := (h >>> 4) &&& 0x7
             receiver := h &&& 0x7
             data := [0x50, a, b, c, d, e, f, g, k] ++ frame.data.drop 9
             dataLength := 9 }) := by
    rw [hx]
    norm_num
  refine ⟨hx2, ?_⟩
  rw [hx2]
  rw [decode_of_long MAX _ params scratch (by simp; omega) hscr (by simp) (by simp; omega)]
  have hpan := read16_nibbles [0x50] ([e, f, g, k] ++ frame.data.drop 9) a b c d ha hb hc hd 1 rfl
  have htilt := read16_nibbles [0x50, a, b, c, d] (frame.data.drop 9) e f g k he hf hg hk 5 rfl
  simp only [List.cons_append, List.nil_append] at hpan htilt ⊢
  rw [hpan, htilt]
  simp [nat_and_255, nibble_and_240, ha, hb, hc, hd, he, hf, hg, hk,
    JR_VISCA_MESSAGE_PAN_TILT_POSITION_INQ_RESPONSE]

/-- Claim C10. For every header byte `h ≠ 0xff` and all nibbles `a b c d e f g k` in `0..15`,
`jr_viscaDataToFrame` on the 11 bytes `h 50 0a 0b 0c 0d 0e 0f 0g 0k ff` consumes 11 bytes and
`jr_viscaDecodeFrame` on the extracted frame returns
`JR_VISCA_MESSAGE_PAN_TILT_POSITION_INQ_RESPONSE` with `panPosition` the 16-bit
two's-complement value of `0xabcd` (the number `0xabcd` when it is below `0x8000`, and
`0xabcd - 0x10000` otherwise) and `tiltPosition` that of `0xefgk`; on
`81 50 01 02 00 03 04 00 05 06 ff` this gives sender 0, receiver 1, pan `0x1203` and tilt
`0x4056`, and on `81 50 0f 0f 0f 0e 08 00 00 00 ff` pan `-2` and tilt `-32768`.
`JR_VISCA_MAX_FRAME_DATA_LENGTH` is at least 11. -/
theorem response_scenario (MAX : Nat) (hmax : 11 ≤ MAX) (h a b c d e f g k : Nat)
    (hh : h ≠ 0xff) (ha : a < 16) (hb : b < 16) (hc : c < 16) (hd : d < 16) (he : e < 16)
    (hf : f < 16) (hg : g < 16) (hk : k < 16) (frame : jr_viscaFrame)
    (hcap : frame.data.length = MAX) (params : jr_viscaMessageParameters)
    (scratch : Nat → List Nat) (hscr : ∀ i, (scratch i).length = MAX) :
    (jr_viscaDataToFrame MAX [h, 0x50, a, b, c, d, e, f, g, k, 0xff] frame).1 = 11 ∧
    jr_viscaDecodeFrame MAX (jr_viscaDataToFrame MAX [h, 0x50, a, b, c, d, e, f, g, k, 0xff]
      frame).2 params scratch =
      some (JR_VISCA_MESSAGE_PAN_TILT_POSITION_INQ_RESPONSE,
        ⟨if a * 0x1000 + b * 0x100 + c * 0x10 + d < 0x8000 then
            ((a * 0x1000 + b * 0x100 + c * 0x10 + d : Nat) : Int)
          else ((a * 0x1000 + b * 0x100 + c * 0x10 + d : Nat) : Int) - 0x10000,
         if e * 0x1000 + f * 0x100 + g * 0x10 + k < 0x8000 then
            ((e * 0x1000 + f * 0x100 + g * 0x10 + k : Nat) : Int)
          else ((e * 0x1000 + f * 0x100 + g * 0x10 + k : Nat) : Int) - 0x10000⟩) ∧
    (jr_viscaDataToFrame MAX [0x81, 0x50, 1, 2, 0, 3, 4, 0, 5, 6, 0xff] frame).1 = 11 ∧
    (jr_viscaDataToFrame MAX [0x81, 0x50, 1, 2, 0, 3, 4, 0, 5, 6, 0xff] frame).2.sender = 0 ∧
    (jr_viscaDataToFrame MAX [0x81, 0x50, 1, 2, 0, 3, 4, 0, 5, 6, 0xff] frame).2.receiver = 1 ∧
    jr_viscaDecodeFrame MAX (jr_viscaDataToFrame MAX [0x81, 0x50, 1, 2, 0, 3, 4, 0, 5, 6, 0xff]
      frame).2 params scratch =
      some (JR_VISCA_MESSAGE_PAN_TILT_POSITION_INQ_RESPONSE, ⟨0x1203, 0x4056⟩) ∧
    jr_viscaDecodeFrame MAX (jr_viscaDataToFrame MAX
      [0x81, 0x50, 15, 15, 15, 14, 8, 0, 0, 0, 0xff] frame).2 params scratch =
      some (JR_VISCA_MESSAGE_PAN_TILT_POSITION_INQ_RESPONSE, ⟨-2, -32768⟩) := by
  have g1 := response_frame MAX hmax h a b c d e f g k hh ha hb hc hd he hf hg hk frame hcap
    params scratch hscr
  have g2 := response_frame MAX hmax 0x81 1 2 0 3 4 0 5 6 (by decide) (by decide) (by decide)
    (by decide) (by decide) (by decide) (by decide) (by decide) (by decide) frame hcap
    params scratch hscr
  have g3 := response_frame MAX hmax 0x81 15 15 15 14 8 0 0 0 (by decide) (by decide)
    (by decide) (by decide) (by decide) (by decide) (by decide) (by decide) (by decide) frame
    hcap params scratch hscr
  have wrap : ∀ n : Nat, n < 0x10000 →
      toInt16 (n : Int) = if n < 0x8000 then (n : Int) else (n : Int) - 0x10000 := by
    intro n hn
    unfold toInt16
    split <;> omega
  have w1 := wrap (a * 0x1000 + b * 0x100 + c * 0x10 + d) (by omega)
  have w2 := wrap (e * 0x1000 + f * 0x100 + g * 0x10 + k) (by omega)
  have w3 := wrap (1 * 0x1000 + 2 * 0x100 + 0 * 0x10 + 3) (by decide)
  have w4 := wrap (4 * 0x1000 + 0 * 0x100 + 5 * 0x10 + 6) (by decide)
  have w5 := wrap (15 * 0x1000 + 15 * 0x100 + 15 * 0x10 + 14) (by decide)
  have w6 := wrap (8 * 0x1000 + 0 * 0x100 + 0 * 0x10 + 0) (by decide)
  refine ⟨by rw [g1.1], ?_, by rw [g2.1], ?_, ?_, ?_, ?_⟩
  · rw [g1.2, w1, w2]
  · rw [g2.1]
    show ((0x81 : Nat) >>> 4) &&& 0x7 = 0
    decide
  · rw [g2.1]
    show (0x81 : Nat) &&& 0x7 = 1
    decide
  · rw [g2.2, w3, w4]
    decide
  · rw [g3.2, w5, w6]
    decide

/-- Concrete instance: capacity 16 and the bytes `81 50 0f 0f 0f 0e 08 00 00 00 ff`,
which carry pan `-2` and tilt `-32768`; the reader evaluated on the same payload. -/
theorem response_scenario_witness :
    (jr_viscaDataToFrame 16 [0x81, 0x50, 15, 15, 15, 14, 8, 0, 0, 0, 0xff]
      ⟨7, 7, List.replicate 16 0xaa, 0⟩).1 = 11 ∧
    jr_viscaDecodeFrame 16 (jr_viscaDataToFrame 16
        [0x81, 0x50, 15, 15, 15, 14, 8, 0, 0, 0, 0xff] ⟨7, 7, List.replicate 16 0xaa, 0⟩).2
        ⟨0, 0⟩ (fun _ => List.replicate 16 0x12) =
      some (JR_VISCA_MESSAGE_PAN_TILT_POSITION_INQ_RESPONSE, ⟨-2, -32768⟩) ∧
    _jr_viscaRead16FromBuffer [0x50, 15, 15, 15, 14, 8, 0, 0, 0] 1 = -2 ∧
    _jr_viscaRead16FromBuffer [0x50, 15, 15, 15, 14, 8, 0, 0, 0] 5 = -32768 :=
  have h := response_scenario 16 (by decide) 0x81 15 15 15 14 8 0 0 0 (by decide) (by decide)
    (by decide) (by decide) (by decide) (by decide) (by decide) (by decide) (by decide)
    ⟨7, 7, List.replicate 16 0xaa, 0⟩ (by decide) ⟨0, 0⟩ (fun _ => List.replicate 16 0x12)
    (by intro i; simp)
  ⟨h.1, h.2.2.2.2.2.2, by decide, by decide⟩

/-! ## Lemmas on the nibble writes -/

theorem testBit_nibble_high (n i : Nat) (hn : n < 16) (hi : 4 ≤ i) : n.testBit i = false := by
  apply Nat.testBit_lt_two_pow
  calc n < 16 := hn
    _ = 2 ^ 4 := by norm_num
    _ ≤ 2 ^ i := Nat.pow_le_pow_right (by norm_num) hi

theorem testBit_240 (i : Nat) : (0xf0 : Nat).testBit i = (decide (4 ≤ i) && decide (i < 8)) := by
  by_cases h8 : i < 8
  · interval_cases i <;> decide
  · have : (0xf0 : Nat).testBit i = false := by
      apply Nat.testBit_lt_two_pow
      calc (0xf0 : Nat) < 2 ^ 8 := by norm_num
        _ ≤ 2 ^ i := Nat.pow_le_pow_right (by norm_num) (by omega)
    rw [this]
    simp [h8]

/-- The byte `(b | n) mod 256` keeps the high nibble of `b` when `n` is a nibble. -/
theorem or_nibble_high (b n : Nat) (hn : n < 16) : ((b ||| n) % 256) &&& 0xf0 = b &&& 0xf0 := by
  apply Nat.eq_of_testBit_eq
  intro i
  rw [Nat.testBit_and, Nat.testBit_and, show (256 : Nat) = 2 ^ 8 by norm_num,
    Nat.testBit_mod_two_pow, Nat.testBit_or, testBit_240]
  by_cases h4 : 4 ≤ i
  · rw [testBit_nibble_high n i hn h4]
    by_cases h8 : i < 8 <;> simp [h4, h8]
  · simp [h4]

/-- The low nibble of `(b | n) mod 256` is the low nibble of `b` or-ed with the nibble `n`. -/
theorem or_nibble_low (b n : Nat) (hn : n < 16) :
    ((b ||| n) % 256) &&& 0xf = (b &&& 0xf) ||| n := by
  apply Nat.eq_of_testBit_eq
  intro i
  rw [Nat.testBit_and, Nat.testBit_or, Nat.testBit_and, show (256 : Nat) = 2 ^ 8 by norm_num,
    Nat.testBit_mod_two_pow, Nat.testBit_or, show (0xf : Nat) = 2 ^ 4 - 1 by norm_num,
    Nat.testBit_two_pow_sub_one]
  by_cases h4 : i < 4
  · have h8 : i < 8 := by omega
    simp [h4, h8]
  · rw [testBit_nibble_high n i hn (by omega)]
    simp [h4]

theorem orByte_length (mem : List Nat) (k : Nat) (x : Int) :
    (orByte mem k x).length = mem.length := by
  simp [orByte]

theorem orByte_getElem? (mem : List Nat) (k : Nat) (x : Int) (j : Nat) :
    (orByte mem k x)[j]? =
      if k = j then mem[j]?.map (fun b => (b ||| x.toNat) % 256) else mem[j]? := by
  unfold orByte
  rw [List.getElem?_set']
  by_cases h : k = j
  · subst h
    simp only [if_pos rfl]
    cases hm : mem[k]? with
    | none => simp
    | some b => simp [hm]
  · simp [h]

/-- The bytes of the memory after `_jr_viscaWrite16ToBuffer`. -/
theorem write16_getElem? (v : Int) (mem : List Nat) (off j : Nat) :
    (_jr_viscaWrite16ToBuffer v mem off)[j]? =
      if j = off then mem[j]?.map (fun b => (b ||| (Int.land (v >>> (12 : Nat)) 0xf).toNat) % 256)
      else if j = off + 1 then
        mem[j]?.map (fun b => (b ||| (Int.land (v >>> (8 : Nat)) 0xf).toNat) % 256)
      else if j = off + 2 then
        mem[j]?.map (fun b => (b ||| (Int.land (v >>> (4 : Nat)) 0xf).toNat) % 256)
      else if j = off + 3 then mem[j]?.map (fun b => (b ||| (Int.land v 0xf).toNat) % 256)
      else mem[j]? := by
  unfold _jr_viscaWrite16ToBuffer
  simp only [orByte_getElem?, Nat.add_zero]
  by_cases h0 : j = off
  · subst h0
    simp
  · by_cases h1 : j = off + 1
    · subst h1
      simp
    · by_cases h2 : j = off + 2
      · subst h2
        simp
      · by_cases h3 : j = off + 3
        · subst h3
          simp
        · have e0 : ¬ off = j := fun h => h0 h.symm
          have e1 : ¬ off + 1 = j := fun h => h1 h.symm
          have e2 : ¬ off + 2 = j := fun h => h2 h.symm
          have e3 : ¬ off + 3 = j := fun h => h3 h.symm
          simp [h0, h1, h2, h3, e0, e1, e2, e3]

theorem write16_length (v : Int) (mem : List Nat) (off : Nat) :
    (_jr_viscaWrite16ToBuffer v mem off).length = mem.length := by
  simp [_jr_viscaWrite16ToBuffer, orByte_length]

theorem int_shiftRight_zero (v : Int) : v >>> (0 : Nat) = v := by
  rw [Int.shiftRight_eq_div_pow]
  simp

theorem nibble_lt (v : Int) (k : Nat) : nibble v k < 16 :=
  land_15_toNat_lt _

/-- The four bytes `_jr_viscaWrite16ToBuffer` writes, inside the memory. -/
theorem write16_getD (v : Int) (mem : List Nat) (off k : Nat) (hk : k < 4)
    (hlen : off + 4 ≤ mem.length) :
    (_jr_viscaWrite16ToBuffer v mem off).getD (off + k) 0
      = (mem.getD (off + k) 0 ||| nibble v k) % 256 := by
  have hm : mem[off + k]? = some (mem.getD (off + k) 0) := by
    rw [List.getD_eq_getElem _ _ (by omega)]
    exact List.getElem?_eq_getElem _
  rw [List.getD_eq_getElem?_getD, write16_getElem?, hm]
  interval_cases k
  · simp [nibble]
  · simp [nibble]
  · simp [nibble]
  · simp [nibble, int_shiftRight_zero]

/-- The bytes `_jr_viscaWrite16ToBuffer` leaves alone. -/
theorem write16_getElem?_other (v : Int) (mem : List Nat) (off j : Nat)
    (hj : j < off ∨ off + 4 ≤ j) :
    (_jr_viscaWrite16ToBuffer v mem off)[j]? = mem[j]? := by
  rw [write16_getElem?, if_neg (by omega), if_neg (by omega), if_neg (by omega),
    if_neg (by omega)]

/-- The value of a 16-bit integer from its four nibbles. -/
theorem nibbles_value (v : Int) (hv : -32768 ≤ v ∧ v ≤ 32767) :
    toInt16 (((nibble v 0 * 0x1000 : Nat) : Int) + ((nibble v 1 * 0x100 : Nat) : Int)
      + ((nibble v 2 * 0x10 : Nat) : Int) + ((nibble v 3 : Nat) : Int)) = v := by
  have h0 : ((nibble v 3 : Nat) : Int) = v % 16 := by
    unfold nibble
    rw [int_land_15, Int.shiftRight_eq_div_pow]; norm_num; omega
  have h1 : ((nibble v 2 : Nat) : Int) = (v / 16) % 16 := by
    unfold nibble
    rw [int_land_15, Int.shiftRight_eq_div_pow]; norm_num; omega
  have h2 : ((nibble v 1 : Nat) : Int) = (v / 256) % 16 := by
    unfold nibble
    rw [int_land_15, Int.shiftRight_eq_div_pow]; norm_num; omega
  have h3 : ((nibble v 0 : Nat) : Int) = (v / 4096) % 16 := by
    unfold nibble
    rw [int_land_15, Int.shiftRight_eq_div_pow]; norm_num; omega
  simp only [Nat.cast_mul, Nat.cast_ofNat, h0, h1, h2, h3]
  unfold toInt16
  omega

/-- Claim C11. For every signed 16-bit value `v` and every four-byte field whose low nibbles
are zero (the high nibbles are arbitrary), `_jr_viscaRead16FromBuffer` on the field after
`_jr_viscaWrite16ToBuffer(v, field)` returns `v`, negative values included; for `v = 0x1234`
the low nibbles of the field become 1, 2, 3, 4. -/
theorem write_read_roundtrip (v : Int) (hv : -32768 ≤ v ∧ v ≤ 32767) (mem : List Nat)
    (off : Nat) (hlen : off + 4 ≤ mem.length)
    (hlow : ∀ k, k < 4 → mem.getD (off + k) 0 &&& 0xf = 0) :
    _jr_viscaRead16FromBuffer (_jr_viscaWrite16ToBuffer v mem off) off = v ∧
    (_jr_viscaWrite16ToBuffer 0x1234 mem off).getD (off + 0) 0 &&& 0xf = 1 ∧
    (_jr_viscaWrite16ToBuffer 0x1234 mem off).getD (off + 1) 0 &&& 0xf = 2 ∧
    (_jr_viscaWrite16ToBuffer 0x1234 mem off).getD (off + 2) 0 &&& 0xf = 3 ∧
    (_jr_viscaWrite16ToBuffer 0x1234 mem off).getD (off + 3) 0 &&& 0xf = 4 := by
  have key : ∀ (w : Int) (k : Nat), k < 4 →
      (_jr_viscaWrite16ToBuffer w mem off).getD (off + k) 0 &&& 0xf = nibble w k := by
    intro w k hk
    rw [write16_getD w mem off k hk hlen, or_nibble_low _ _ (nibble_lt w k), hlow k hk,
      Nat.zero_or]
  refine ⟨?_, ?_, ?_, ?_, ?_⟩
  · unfold _jr_viscaRead16FromBuffer
    simp only [key v 0 (by omega), key v 1 (by omega), key v 2 (by omega), key v 3 (by omega)]
    rw [toInt16_chain]
    exact nibbles_value v hv
  · rw [key _ 0 (by omega)]; decide
  · rw [key _ 1 (by omega)]; decide
  · rw [key _ 2 (by omega)]; decide
  · rw [key _ 3 (by omega)]; decide

/-- Concrete instance: the value `0x1234` written into the field `50 60 70 80`. -/
theorem write_read_roundtrip_witness :
    _jr_viscaRead16FromBuffer (_jr_viscaWrite16ToBuffer 0x1234 [0x50, 0x60, 0x70, 0x80] 0) 0
      = 0x1234 :=
  (write_read_roundtrip 0x1234 (by decide) [0x50, 0x60, 0x70, 0x80] 0 (by decide)
    (by decide)).1

/-- Claim C13. After `_jr_viscaWrite16ToBuffer(v, b)` each of the four bytes keeps its high
nibble (`b'[k] & 0xF0 == b[k] & 0xF0`) and its low nibble is the old low nibble or-ed with
nibble `k` of `v`, the most significant nibble first; and
`jr_visca_handlePanTiltPositionInqResponseParameters` in encode mode changes only the payload
bytes 1..8: byte 0, the bytes from index 9 on, `dataLength`, `sender` and `receiver` (and the
parameters) are left as they were. -/
theorem write16_only_ors_low_nibbles (v : Int) (mem : List Nat) (off : Nat)
    (hlen : off + 4 ≤ mem.length) (frame : jr_viscaFrame)
    (params : jr_viscaMessageParameters) :
    (∀ k, k < 4 →
      (_jr_viscaWrite16ToBuffer v mem off).getD (off + k) 0 &&& 0xf0
        = mem.getD (off + k) 0 &&& 0xf0 ∧
      (_jr_viscaWrite16ToBuffer v mem off).getD (off + k) 0 &&& 0xf
        = (mem.getD (off + k) 0 &&& 0xf) ||| nibble v k) ∧
    (jr_visca_handlePanTiltPositionInqResponseParameters frame params false).1.sender
      = frame.sender ∧
    (jr_visca_handlePanTiltPositionInqResponseParameters frame params false).1.receiver
      = frame.receiver ∧
    (jr_visca_handlePanTiltPositionInqResponseParameters frame params false).1.dataLength
      = frame.dataLength ∧
    (jr_visca_handlePanTiltPositionInqResponseParameters frame params false).2 = params ∧
    (jr_visca_handlePanTiltPositionInqResponseParameters frame params false).1.data.length
      = frame.data.length ∧
    (jr_visca_handlePanTiltPositionInqResponseParameters frame params false).1.data[0]?
      = frame.data[0]? ∧
    (∀ j, 9 ≤ j →
      (jr_visca_handlePanTiltPositionInqResponseParameters frame params false).1.data[j]?
        = frame.data[j]?) := by
  refine ⟨?_, rfl, rfl, rfl, rfl, ?_, ?_, ?_⟩
  · intro k hk
    rw [write16_getD v mem off k hk hlen]
    exact ⟨or_nibble_high _ _ (nibble_lt v k), or_nibble_low _ _ (nibble_lt v k)⟩
  · simp [jr_visca_handlePanTiltPositionInqResponseParameters, write16_length]
  · simp only [jr_visca_handlePanTiltPositionInqResponseParameters, Bool.false_eq_true,
      if_false]
    rw [write16_getElem?_other _ _ 5 0 (by omega), write16_getElem?_other _ _ 1 0 (by omega)]
  · intro j hj
    simp only [jr_visca_handlePanTiltPositionInqResponseParameters, Bool.false_eq_true,
      if_false]
    rw [write16_getElem?_other _ _ 5 j (by omega), write16_getElem?_other _ _ 1 j (by omega)]

/-- Concrete instance: the value `0x1234` written over the field `5f 60 70 81`, and the
handler on a frame of capacity 16. -/
theorem write16_only_ors_low_nibbles_witness :
    (_jr_viscaWrite16ToBuffer 0x1234 [0x5f, 0x60, 0x70, 0x81] 0).getD (0 + 1) 0 &&& 0xf0
        = [0x5f, 0x60, 0x70, 0x81].getD (0 + 1) 0 &&& 0xf0 ∧
      (_jr_viscaWrite16ToBuffer 0x1234 [0x5f, 0x60, 0x70, 0x81] 0).getD (0 + 1) 0 &&& 0xf
        = ([0x5f, 0x60, 0x70, 0x81].getD (0 + 1) 0 &&& 0xf) ||| nibble 0x1234 1 :=
  (write16_only_ors_low_nibbles 0x1234 [0x5f, 0x60, 0x70, 0x81] 0 (by decide)
    ⟨0, 1, List.replicate 16 0xaa, 9⟩ ⟨0x1234, 0x4056⟩).1 1 (by decide)

/-- Claim C12. For every `messageType` other than the `commandType` of a non-terminating table
entry (every integer other than 1, 2 and 0x947, the terminator's `commandType` 0 included),
`jr_viscaEncodeFrame` returns `-1` and leaves the output frame as it was (sender, receiver,
`dataLength` and every payload byte); for 1, 2 and 0x947 it returns `0`. -/
theorem encode_unknown_kind (MAX : Nat) (messageType : Int)
    (params : jr_viscaMessageParameters) (frame : jr_viscaFrame)
    (h1 : messageType ≠ JR_VISCA_MESSAGE_PAN_TILT_POSITION_INQ)
    (h2 : messageType ≠ JR_VISCA_MESSAGE_PAN_TILT_POSITION_INQ_RESPONSE)
    (h3 : messageType ≠ JR_VISCA_MESSAGE_ZOOM_POSITION_INQ) :
    jr_viscaEncodeFrame MAX messageType params frame = some (-1, frame) ∧
    jr_viscaEncodeFrame MAX 0 params frame = some (-1, frame) ∧
    (∃ f, jr_viscaEncodeFrame MAX JR_VISCA_MESSAGE_PAN_TILT_POSITION_INQ params frame
      = some (0, f)) ∧
    (∃ f, jr_viscaEncodeFrame MAX JR_VISCA_MESSAGE_PAN_TILT_POSITION_INQ_RESPONSE params frame
      = some (0, f)) ∧
    (∃ f, jr_viscaEncodeFrame MAX JR_VISCA_MESSAGE_ZOOM_POSITION_INQ params frame
      = some (0, f)) := by
  refine ⟨?_, ?_, ?_, ?_, ?_⟩
  · unfold jr_viscaEncodeFrame definitions
    simp only [encodeLoop]
    simp [h1, h2, h3]
  · unfold jr_viscaEncodeFrame definitions
    simp [encodeLoop, JR_VISCA_MESSAGE_PAN_TILT_POSITION_INQ,
      JR_VISCA_MESSAGE_PAN_TILT_POSITION_INQ_RESPONSE, JR_VISCA_MESSAGE_ZOOM_POSITION_INQ]
  · unfold jr_viscaEncodeFrame definitions
    simp [encodeLoop]
  · unfold jr_viscaEncodeFrame definitions
    simp [encodeLoop, JR_VISCA_MESSAGE_PAN_TILT_POSITION_INQ,
      JR_VISCA_MESSAGE_PAN_TILT_POSITION_INQ_RESPONSE]
  · unfold jr_viscaEncodeFrame definitions
    simp [encodeLoop, JR_VISCA_MESSAGE_PAN_TILT_POSITION_INQ,
      JR_VISCA_MESSAGE_PAN_TILT_POSITION_INQ_RESPONSE, JR_VISCA_MESSAGE_ZOOM_POSITION_INQ]

/-- Concrete instance: the kind `JR_VISCA_MESSAGE_ACK`, which has no table entry. -/
theorem encode_unknown_kind_witness :
    jr_viscaEncodeFrame 16 JR_VISCA_MESSAGE_ACK ⟨1, 2⟩ ⟨3, 4, List.replicate 16 0xaa, 5⟩
      = some (-1, ⟨3, 4, List.replicate 16 0xaa, 5⟩) :=
  (encode_unknown_kind 16 JR_VISCA_MESSAGE_ACK ⟨1, 2⟩ ⟨3, 4, List.replicate 16 0xaa, 5⟩
    (by decide) (by decide) (by decide)).1

/-- The decoder returns on every frame, with one of the four values `-1`, `1`, `2`, `0x947`. -/
theorem decode_kind_cases (MAX : Nat) (frame : jr_viscaFrame)
    (params : jr_viscaMessageParameters) (scratch : Nat → List Nat) :
    ∃ k q, jr_viscaDecodeFrame MAX frame params scratch = some (k, q) ∧
      (k = -1 ∨ k = 1 ∨ k = 2 ∨ k = 0x947) := by
  unfold jr_viscaDecodeFrame definitions
  simp only [decodeLoop]
  split_ifs <;>
    first
    | omega
    | exact ⟨_, _, rfl, by
        simp [JR_VISCA_MESSAGE_PAN_TILT_POSITION_INQ,
          JR_VISCA_MESSAGE_PAN_TILT_POSITION_INQ_RESPONSE, JR_VISCA_MESSAGE_ZOOM_POSITION_INQ]⟩

/-- The encoder returns on every input, with `0` or `-1`. -/
theorem encode_result_cases (MAX : Nat) (messageType : Int)
    (params : jr_viscaMessageParameters) (frame : jr_viscaFrame) :
    ∃ r f, jr_viscaEncodeFrame MAX messageType params frame = some (r, f) ∧
      (r = 0 ∨ r = -1) := by
  unfold jr_viscaEncodeFrame definitions
  simp only [encodeLoop]
  split_ifs <;>
    first
    | omega
    | exact ⟨_, _, rfl, by simp⟩

/-- The decoding scan never looks at what follows the terminating entry. -/
theorem decodeLoop_definitions_append (MAX : Nat) (frame : jr_viscaFrame)
    (params : jr_viscaMessageParameters) (scratch : Nat → List Nat)
    (junk : List jr_viscaMessageDefinition) :
    decodeLoop frame params scratch (definitions MAX ++ junk) 0
      = decodeLoop frame params scratch (definitions MAX) 0 := by
  unfold definitions
  simp only [List.cons_append, List.nil_append, decodeLoop]
  simp

/-- The encoding scan never looks at what follows the terminating entry. -/
theorem encodeLoop_definitions_append (MAX : Nat) (messageType : Int)
    (params : jr_viscaMessageParameters) (frame : jr_viscaFrame)
    (junk : List jr_viscaMessageDefinition) :
    encodeLoop messageType params frame (definitions MAX ++ junk)
      = encodeLoop messageType params frame (definitions MAX) := by
  unfold definitions
  simp only [List.cons_append, List.nil_append, encodeLoop]
  simp

/-- Claim C15. The terminating entry (`signatureLength` 0, `commandType` 0) is never matched:
on every frame `jr_viscaDecodeFrame` returns, and its result is one of `-1`, `1`, `2`, `0x947`,
never `0`; `jr_viscaEncodeFrame` returns on every input, with `0` or `-1`. The table has three
entries with a non-zero `signatureLength` followed by the terminator, and both scans stop at
the terminator: entries placed after it change nothing. -/
theorem terminator_never_matched (MAX : Nat) (frame : jr_viscaFrame)
    (params : jr_viscaMessageParameters) (scratch : Nat → List Nat) (messageType : Int)
    (outFrame : jr_viscaFrame) (junk : List jr_viscaMessageDefinition) :
    (∃ k q, jr_viscaDecodeFrame MAX frame params scratch = some (k, q) ∧
      (k = -1 ∨ k = 1 ∨ k = 2 ∨ k = 0x947) ∧ k ≠ 0) ∧
    (∃ r f, jr_viscaEncodeFrame MAX messageType params outFrame = some (r, f) ∧
      (r = 0 ∨ r = -1)) ∧
    (definitions MAX).map (fun d => d.signatureLength) = [3, 9, 3, 0] ∧
    (definitions MAX).map (fun d => d.commandType) = [1, 2, 0x947, 0] ∧
    (tableEntries (definitions MAX)).length = 3 ∧
    decodeLoop frame params scratch (definitions MAX ++ junk) 0
      = jr_viscaDecodeFrame MAX frame params scratch ∧
    encodeLoop messageType params outFrame (definitions MAX ++ junk)
      = jr_viscaEncodeFrame MAX messageType params outFrame := by
  refine ⟨?_, encode_result_cases MAX messageType params outFrame, ?_, ?_, ?_,
    decodeLoop_definitions_append MAX frame params scratch junk,
    encodeLoop_definitions_append MAX messageType params outFrame junk⟩
  · obtain ⟨k, q, h, hk⟩ := decode_kind_cases MAX frame params scratch
    refine ⟨k, q, h, hk, ?_⟩
    rcases hk with hk | hk | hk | hk <;> omega
  · simp [definitions]
  · simp [definitions, JR_VISCA_MESSAGE_PAN_TILT_POSITION_INQ,
      JR_VISCA_MESSAGE_PAN_TILT_POSITION_INQ_RESPONSE, JR_VISCA_MESSAGE_ZOOM_POSITION_INQ]
  · rw [tableEntries_definitions]
    simp [definitions]

/-- Claim C16, refuted as stated: with `JR_VISCA_MAX_FRAME_DATA_LENGTH = 16`,
`jr_viscaEncodeFrame` on `JR_VISCA_MESSAGE_ACK`, on `JR_VISCA_MESSAGE_COMPLETION` and on
`JR_VISCA_MESSAGE_ERROR_REPLY` returns `-1`, not `0`: the table has no entry for them. -/
theorem ack_not_encode_target :
    jr_viscaEncodeFrame 16 JR_VISCA_MESSAGE_ACK ⟨0, 0⟩ ⟨0, 1, List.replicate 16 0, 0⟩
      = some (-1, ⟨0, 1, List.replicate 16 0, 0⟩) ∧
    jr_viscaEncodeFrame 16 JR_VISCA_MESSAGE_COMPLETION ⟨0, 0⟩ ⟨0, 1, List.replicate 16 0, 0⟩
      = some (-1, ⟨0, 1, List.replicate 16 0, 0⟩) ∧
    jr_viscaEncodeFrame 16 JR_VISCA_MESSAGE_ERROR_REPLY ⟨0, 0⟩ ⟨0, 1, List.replicate 16 0, 0⟩
      = some (-1, ⟨0, 1, List.replicate 16 0, 0⟩) := by
  refine ⟨by decide, by decide, by decide⟩

/-- Claim C16, amended. Of the kinds the data model names, the three with a signature table
entry are encode targets: for `JR_VISCA_MESSAGE_PAN_TILT_POSITION_INQ`,
`JR_VISCA_MESSAGE_PAN_TILT_POSITION_INQ_RESPONSE` and `JR_VISCA_MESSAGE_ZOOM_POSITION_INQ`,
`jr_viscaEncodeFrame` returns `0` and the frame it produces decodes to that kind. For
`JR_VISCA_MESSAGE_ACK`, `JR_VISCA_MESSAGE_COMPLETION` and `JR_VISCA_MESSAGE_ERROR_REPLY`, which
have no table entry, `jr_viscaEncodeFrame` returns `-1` and leaves the frame as it was, and no
frame decodes to one of them. -/
theorem encode_targets (MAX : Nat) (hmax : 9 ≤ MAX) (params : jr_viscaMessageParameters)
    (hpan : -32768 ≤ params.panPosition ∧ params.panPosition ≤ 32767)
    (htilt : -32768 ≤ params.tiltPosition ∧ params.tiltPosition ≤ 32767)
    (frame : jr_viscaFrame) (hcap : frame.data.length = MAX)
    (dparams : jr_viscaMessageParameters) (scratch : Nat → List Nat)
    (hscr : ∀ i, (scratch i).length = MAX) (any : jr_viscaFrame) :
    (∃ f, jr_viscaEncodeFrame MAX JR_VISCA_MESSAGE_PAN_TILT_POSITION_INQ params frame
        = some (0, f) ∧
      ∃ q, jr_viscaDecodeFrame MAX f dparams scratch
        = some (JR_VISCA_MESSAGE_PAN_TILT_POSITION_INQ, q)) ∧
    (∃ f, jr_viscaEncodeFrame MAX JR_VISCA_MESSAGE_PAN_TILT_POSITION_INQ_RESPONSE params frame
        = some (0, f) ∧
      ∃ q, jr_viscaDecodeFrame MAX f dparams scratch
        = some (JR_VISCA_MESSAGE_PAN_TILT_POSITION_INQ_RESPONSE, q)) ∧
    (∃ f, jr_viscaEncodeFrame MAX JR_VISCA_MESSAGE_ZOOM_POSITION_INQ params frame
        = some (0, f) ∧
      ∃ q, jr_viscaDecodeFrame MAX f dparams scratch
        = some (JR_VISCA_MESSAGE_ZOOM_POSITION_INQ, q)) ∧
    (∀ kind, kind = JR_VISCA_MESSAGE_ACK ∨ kind = JR_VISCA_MESSAGE_COMPLETION ∨
        kind = JR_VISCA_MESSAGE_ERROR_REPLY →
      jr_viscaEncodeFrame MAX kind params frame = some (-1, frame) ∧
      ∀ q, jr_viscaDecodeFrame MAX any dparams scratch ≠ some (kind, q)) := by
  refine ⟨?_, ?_, ?_, ?_⟩
  · rw [encode_panTiltInq MAX hmax _ frame hcap]
    refine ⟨_, rfl, dparams, ?_⟩
    rw [decode_of_three MAX _ dparams scratch hmax (by simp; omega) hscr (by simp)
      (by simp [nat_and_255])]
    simp [nat_and_255, JR_VISCA_MESSAGE_PAN_TILT_POSITION_INQ]
  · rw [encode_response MAX hmax params.panPosition params.tiltPosition frame hcap]
    exact ⟨_, rfl, _, decode_encoded_response MAX hmax params.panPosition params.tiltPosition
      hpan htilt _ _ frame.data hcap dparams scratch hscr⟩
  · rw [encode_zoomInq MAX hmax _ frame hcap]
    refine ⟨_, rfl, dparams, ?_⟩
    rw [decode_of_three MAX _ dparams scratch hmax (by simp; omega) hscr (by simp)
      (by simp [nat_and_255])]
    simp [nat_and_255, JR_VISCA_MESSAGE_ZOOM_POSITION_INQ]
  · intro kind hkind
    have hk : kind = 7 ∨ kind = 8 ∨ kind = 0x9601 := by
      simpa [JR_VISCA_MESSAGE_ACK, JR_VISCA_MESSAGE_COMPLETION, JR_VISCA_MESSAGE_ERROR_REPLY]
        using hkind
    constructor
    · unfold jr_viscaEncodeFrame definitions
      simp only [encodeLoop, JR_VISCA_MESSAGE_PAN_TILT_POSITION_INQ,
        JR_VISCA_MESSAGE_PAN_TILT_POSITION_INQ_RESPONSE, JR_VISCA_MESSAGE_ZOOM_POSITION_INQ]
      rw [if_neg (by omega), if_neg (by omega), if_neg (by omega), if_neg (by omega),
        if_neg (by omega), if_neg (by omega)]
      simp
    · intro q hq
      obtain ⟨k, q2, h, hcases⟩ := decode_kind_cases MAX any dparams scratch
      rw [h] at hq
      injection hq with hq
      injection hq with hq1 hq2
      omega

/-- Concrete instance: capacity 16. -/
theorem encode_targets_witness :
    ∃ f, jr_viscaEncodeFrame 16 JR_VISCA_MESSAGE_ZOOM_POSITION_INQ ⟨0, 0⟩
        ⟨0, 1, List.replicate 16 0xaa, 0⟩ = some (0, f) ∧
      ∃ q, jr_viscaDecodeFrame 16 f ⟨5, 6⟩ (fun _ => List.replicate 16 0x12)
        = some (JR_VISCA_MESSAGE_ZOOM_POSITION_INQ, q) :=
  (encode_targets 16 (by decide) ⟨0, 0⟩ (by decide) (by decide)
    ⟨0, 1, List.replicate 16 0xaa, 0⟩ (by decide) ⟨5, 6⟩
    (fun _ => List.replicate 16 0x12) (by intro i; simp)
    ⟨0, 0, List.replicate 16 0, 0⟩).2.2.1

/-- The call `memcpy(dest, src, n)` reads only the first `n` bytes of `src`. -/
theorem memcpy_src_take (dest src : List Nat) (n : Nat) :
    memcpy dest (src.take n) n = memcpy dest src n := by
  induction n generalizing dest src with
  | zero => cases dest <;> cases src <;> simp [memcpy]
  | succ n ih =>
    cases dest with
    | nil => cases src <;> simp [memcpy]
    | cons d ds =>
      cases src with
      | nil => simp [memcpy]
      | cons s ss => simp [memcpy, ih ds ss]

theorem first_lt_length (data : List Nat) (i : Nat) (h : FirstTerminatorAt data i) :
    i < data.length := by
  have := h.1
  rw [List.getElem?_eq_some_iff] at this
  exact this.1

theorem first_of_take_eq (data data2 : List Nat) (i : Nat) (h : FirstTerminatorAt data i)
    (heq : data2.take (i + 1) = data.take (i + 1)) : FirstTerminatorAt data2 i := by
  have key : ∀ j, j < i + 1 → data2[j]? = data[j]? := by
    intro j hj
    have : (data2.take (i + 1))[j]? = (data.take (i + 1))[j]? := by rw [heq]
    rwa [List.getElem?_take_of_lt hj, List.getElem?_take_of_lt hj] at this
  refine ⟨?_, ?_⟩
  · rw [key i (by omega)]; exact h.1
  · intro j hj
    rw [key j (by omega)]; exact h.2 j hj

/-- The result of `jr_viscaDataToFrame` depends only on the bytes up to the first `0xff`. -/
theorem dataToFrame_prefix (MAX : Nat) (data data2 : List Nat) (frame : jr_viscaFrame)
    (i : Nat) (h : FirstTerminatorAt data i) (heq : data2.take (i + 1) = data.take (i + 1)) :
    jr_viscaDataToFrame MAX data2 frame = jr_viscaDataToFrame MAX data frame := by
  have h2 := first_of_take_eq data data2 i h heq
  rw [dataToFrame_of_first MAX data frame i h, dataToFrame_of_first MAX data2 frame i h2]
  have hlt := first_lt_length data i h
  have e0 : data2.getD 0 0 = data.getD 0 0 := by
    have : (data2.take (i + 1))[0]? = (data.take (i + 1))[0]? := by rw [heq]
    rw [List.getElem?_take_of_lt (by omega), List.getElem?_take_of_lt (by omega)] at this
    simp only [List.getD_eq_getElem?_getD, this]
  have e1 : memcpy frame.data (data2.drop 1) (i - 1) = memcpy frame.data (data.drop 1) (i - 1) := by
    rw [← memcpy_src_take _ (data2.drop 1), ← memcpy_src_take _ (data.drop 1)]
    congr 1
    have h3 : ((data2.take (i + 1)).drop 1).take (i - 1)
        = ((data.take (i + 1)).drop 1).take (i - 1) := by rw [heq]
    simpa [List.drop_take, List.take_take, show min (i - 1) i = i - 1 by omega] using h3
  rw [e0, e1]

/-- Claim C17. Whenever `jr_viscaDataToFrame` returns `n > 0` on a buffer of `dataLength`
bytes, `2 ≤ n ≤ dataLength` and `n ≤ JR_VISCA_MAX_FRAME_DATA_LENGTH`; the frame has
`dataLength = n - 2 ≤ JR_VISCA_MAX_FRAME_DATA_LENGTH - 2`, so the copy of `n - 2` bytes stays
inside `frame.data` and inside the buffer; `sender ≤ 7` and `receiver ≤ 7`; and neither the
header byte nor an extracted payload byte equals `0xff`. -/
theorem dataToFrame_within_capacity (MAX : Nat) (data : List Nat) (frame : jr_viscaFrame)
    (hcap : frame.data.length = MAX) (hpos : 0 < (jr_viscaDataToFrame MAX data frame).1) :
    2 ≤ (jr_viscaDataToFrame MAX data frame).1 ∧
    (jr_viscaDataToFrame MAX data frame).1 ≤ data.length ∧
    (jr_viscaDataToFrame MAX data frame).1 ≤ MAX ∧
    ((jr_viscaDataToFrame MAX data frame).2.dataLength : Int)
      = (jr_viscaDataToFrame MAX data frame).1 - 2 ∧
    ((jr_viscaDataToFrame MAX data frame).2.dataLength : Int) ≤ (MAX : Int) - 2 ∧
    (jr_viscaDataToFrame MAX data frame).2.data.length = MAX ∧
    (jr_viscaDataToFrame MAX data frame).2.dataLength + 2 ≤ data.length ∧
    (jr_viscaDataToFrame MAX data frame).2.sender ≤ 7 ∧
    (jr_viscaDataToFrame MAX data frame).2.receiver ≤ 7 ∧
    data[0]? ≠ some 0xff ∧
    (∀ k, k < (jr_viscaDataToFrame MAX data frame).2.dataLength →
      ∃ b, (jr_viscaDataToFrame MAX data frame).2.data[k]? = some b ∧ b ≠ 0xff) := by
  rcases first_or_none data with ⟨i, hi⟩ | hnone
  · have hres := dataToFrame_of_first MAX data frame i hi
    have hlt := first_lt_length data i hi
    by_cases h1 : (i : Int) > (MAX : Int) - 1
    · rw [if_pos h1] at hres
      rw [hres] at hpos
      simp at hpos
    · by_cases h2 : i = 0
      · rw [if_neg h1, if_pos h2] at hres
        rw [hres] at hpos
        simp at hpos
      · rw [if_neg h1, if_neg h2] at hres
        rw [hres]
        have hcpy : memcpy frame.data (data.drop 1) (i - 1)
            = (data.drop 1).take (i - 1) ++ frame.data.drop (i - 1) :=
          memcpy_eq _ _ _ (by omega) (by simp only [List.length_drop]; omega)
        refine ⟨by simp only; omega, by simp only; omega, by simp only; omega,
          by simp only; omega, by simp only; omega, ?_, by simp only; omega,
          Nat.and_le_right, Nat.and_le_right, hi.2 0 (by omega), ?_⟩
        · simp only [memcpy_length, hcap]
        · intro k hk
          simp only at hk
          refine ⟨data[k + 1], ?_, ?_⟩
          · simp only [hcpy]
            rw [List.getElem?_append_left
              (by simp only [List.length_take, List.length_drop]; omega)]
            rw [List.getElem?_take_of_lt hk, List.getElem?_drop]
            rw [show 1 + k = k + 1 by omega]
            exact List.getElem?_eq_getElem _
          · intro hff
            have := hi.2 (k + 1) (by omega)
            rw [List.getElem?_eq_getElem (show k + 1 < data.length by omega), hff] at this
            exact this rfl
  · rw [dataToFrame_of_none MAX data frame hnone] at hpos
    simp at hpos

/-- Concrete instance: the buffer `81 09 04 47 ff 81` with capacity 16. -/
theorem dataToFrame_within_capacity_witness :
    (jr_viscaDataToFrame 16 [0x81, 0x09, 0x04, 0x47, 0xff, 0x81]
      ⟨5, 5, List.replicate 16 0xaa, 0⟩).1 ≤ ([0x81, 0x09, 0x04, 0x47, 0xff, 0x81].length : Int) :=
  (dataToFrame_within_capacity 16 [0x81, 0x09, 0x04, 0x47, 0xff, 0x81]
    ⟨5, 5, List.replicate 16 0xaa, 0⟩ (by decide) (by decide)).2.1

/-- Claim C18. If `jr_viscaDataToFrame` on a buffer `b` returns a non-zero result (a byte
count or the corruption code `-1`), then on `b ++ s`, for any later-arriving bytes `s`, it
returns the same result and leaves the same frame; and a successful result `n > 0` depends
only on the first `n` bytes of the buffer. Only an incomplete result can change when bytes are
appended. -/
theorem dataToFrame_append_stable (MAX : Nat) (b s : List Nat) (frame : jr_viscaFrame)
    (hne : (jr_viscaDataToFrame MAX b frame).1 ≠ 0) :
    jr_viscaDataToFrame MAX (b ++ s) frame = jr_viscaDataToFrame MAX b frame ∧
    (∀ b2 : List Nat, 0 < (jr_viscaDataToFrame MAX b frame).1 →
      b2.take (jr_viscaDataToFrame MAX b frame).1.toNat
        = b.take (jr_viscaDataToFrame MAX b frame).1.toNat →
      jr_viscaDataToFrame MAX b2 frame = jr_viscaDataToFrame MAX b frame) := by
  rcases first_or_none b with ⟨i, hi⟩ | hnone
  · have hlt := first_lt_length b i hi
    refine ⟨?_, ?_⟩
    · apply dataToFrame_prefix MAX b (b ++ s) frame i hi
      rw [List.take_append_of_le_length (by omega)]
    · intro b2 hpos heq
      have hres := dataToFrame_of_first MAX b frame i hi
      by_cases h1 : (i : Int) > (MAX : Int) - 1
      · rw [if_pos h1] at hres
        rw [hres] at hpos
        simp at hpos
      · by_cases h2 : i = 0
        · rw [if_neg h1, if_pos h2] at hres
          rw [hres] at hpos
          simp at hpos
        · rw [if_neg h1, if_neg h2] at hres
          have hn : (jr_viscaDataToFrame MAX b frame).1.toNat = i + 1 := by
            rw [hres]
            simp only
            omega
          rw [hn] at heq
          exact dataToFrame_prefix MAX b b2 frame i hi heq
  · rw [dataToFrame_of_none MAX b frame hnone] at hne
    simp at hne

/-- Concrete instance: the buffer `81 09 04 47 ff` followed by `81 09`, capacity 16. -/
theorem dataToFrame_append_stable_witness :
    jr_viscaDataToFrame 16 ([0x81, 0x09, 0x04, 0x47, 0xff] ++ [0x81, 0x09])
        ⟨5, 5, List.replicate 16 0xaa, 0⟩
      = jr_viscaDataToFrame 16 [0x81, 0x09, 0x04, 0x47, 0xff]
        ⟨5, 5, List.replicate 16 0xaa, 0⟩ :=
  (dataToFrame_append_stable 16 [0x81, 0x09, 0x04, 0x47, 0xff] [0x81, 0x09]
    ⟨5, 5, List.replicate 16 0xaa, 0⟩ (by decide)).1

theorem byte_and_255 (x : Nat) (h : x < 256) : x &&& 255 = x := by
  rw [show (255 : Nat) = 0xff from rfl, nat_and_255]
  exact Nat.mod_eq_of_lt h

theorem byte_low_of_and_240 (x : Nat) (h : x < 256) (h0 : x &&& 240 = 0) : x < 16 := by
  have key : ∀ i, i ≥ 4 → x.testBit i = false := by
    intro i hi
    by_cases h8 : i < 8
    · have := congrArg (fun y => Nat.testBit y i) h0
      simp only [Nat.testBit_and, Nat.zero_testBit] at this
      rw [show (240 : Nat) = 0xf0 from rfl, testBit_240] at this
      simpa [hi, h8] using this
    · apply Nat.testBit_lt_two_pow
      calc x < 256 := h
        _ = 2 ^ 8 := by norm_num
        _ ≤ 2 ^ i := Nat.pow_le_pow_right (by norm_num) (by omega)
  have := Nat.lt_pow_two_of_testBit x key
  simpa using this

/-- The nibbles the encoder writes for a value read from four nibbles. -/
theorem nibbles_of_read (a b c d : Nat) (ha : a < 16) (hb : b < 16) (hc : c < 16)
    (hd : d < 16) :
    (Int.land (toInt16 ((a * 0x1000 + b * 0x100 + c * 0x10 + d : Nat) : Int) >>> (12 : Nat))
      0xf).toNat = a ∧
    (Int.land (toInt16 ((a * 0x1000 + b * 0x100 + c * 0x10 + d : Nat) : Int) >>> (8 : Nat))
      0xf).toNat = b ∧
    (Int.land (toInt16 ((a * 0x1000 + b * 0x100 + c * 0x10 + d : Nat) : Int) >>> (4 : Nat))
      0xf).toNat = c ∧
    (Int.land (toInt16 ((a * 0x1000 + b * 0x100 + c * 0x10 + d : Nat) : Int)) 0xf).toNat
      = d := by
  simp only [int_land_15, Int.shiftRight_eq_div_pow]
  unfold toInt16
  push_cast
  refine ⟨by omega, by omega, by omega, by omega⟩

/-- Claim C19. For a frame of bytes whose payload length `L` satisfies
`9 ≤ L ≤ JR_VISCA_MAX_FRAME_DATA_LENGTH` and on which `jr_viscaDecodeFrame` returns a kind
`k ≠ -1` with parameters `p`, `jr_viscaEncodeFrame(k, p)` returns `0` and produces a payload
whose length is the `signatureLength` of the entry of `k` (3 or 9) and whose bytes are the
first that-many bytes of the original payload. -/
theorem encode_after_decode (MAX : Nat) (frame : jr_viscaFrame)
    (params : jr_viscaMessageParameters) (scratch : Nat → List Nat)
    (hcap : frame.data.length = MAX) (hscr : ∀ i, (scratch i).length = MAX)
    (hL : 9 ≤ frame.dataLength) (hL2 : frame.dataLength ≤ MAX)
    (hbytes : ∀ x, x ∈ frame.data → x < 256) (k : Int) (p : jr_viscaMessageParameters)
    (hdec : jr_viscaDecodeFrame MAX frame params scratch = some (k, p)) (hk : k ≠ -1)
    (outFrame : jr_viscaFrame) (hout : outFrame.data.length = MAX) :
    ∃ f, jr_viscaEncodeFrame MAX k p outFrame = some (0, f) ∧
      (∃ e, e ∈ tableEntries (definitions MAX) ∧ e.commandType = k ∧
        f.dataLength = e.signatureLength) ∧
      (f.dataLength = 3 ∨ f.dataLength = 9) ∧
      f.data.take f.dataLength = frame.data.take f.dataLength := by
  have hmax : 9 ≤ MAX := by omega
  rw [decode_of_long MAX frame params scratch hcap hscr hL hL2] at hdec
  simp only [beq_iff_eq] at hdec
  obtain ⟨d0, d1, d2, d3, d4, d5, d6, d7, d8, rest, hd⟩ := exists_nine frame.data (by omega)
  have hb : ∀ x, x ∈ [d0, d1, d2, d3, d4, d5, d6, d7, d8] → x < 256 := by
    intro x hx
    apply hbytes
    rw [hd]
    simp only [List.mem_cons, List.mem_singleton, List.not_mem_nil, or_false] at hx ⊢
    tauto
  have b0 := hb d0 (by simp)
  have b1 := hb d1 (by simp)
  have b2 := hb d2 (by simp)
  have b3 := hb d3 (by simp)
  have b4 := hb d4 (by simp)
  have b5 := hb d5 (by simp)
  have b6 := hb d6 (by simp)
  have b7 := hb d7 (by simp)
  have b8 := hb d8 (by simp)
  have hmem : tableEntries (definitions MAX) = (definitions MAX).take 3 :=
    tableEntries_definitions MAX
  rw [hd] at hdec
  simp only [List.take, List.zipWith, List.cons.injEq, and_true] at hdec
  split at hdec
  · rename_i c1
    injection hdec with hdec
    injection hdec with hk1 hp1
    subst hk1 hp1
    obtain ⟨e0, e1, e2⟩ := c1
    rw [byte_and_255 _ b0] at e0
    rw [byte_and_255 _ b1] at e1
    rw [byte_and_255 _ b2] at e2
    subst e0 e1 e2
    rw [show (1 : Int) = JR_VISCA_MESSAGE_PAN_TILT_POSITION_INQ from rfl,
      encode_panTiltInq MAX hmax _ outFrame hout]
    refine ⟨_, rfl, ⟨⟨arrayInit MAX [0x09, 0x06, 0x12], arrayInit MAX [0xff, 0xff, 0xff], 3,
      JR_VISCA_MESSAGE_PAN_TILT_POSITION_INQ, .NULL⟩, ?_, rfl, rfl⟩, Or.inl rfl, ?_⟩
    · rw [hmem]; simp [definitions]
    · rw [hd]; simp
  · split at hdec
    · rename_i c1 c2
      injection hdec with hdec
      injection hdec with hk1 hp1
      subst hk1 hp1
      obtain ⟨e0, e1, e2, e3, e4, e5, e6, e7, e8⟩ := c2
      rw [byte_and_255 _ b0] at e0
      subst e0
      have n1 := byte_low_of_and_240 _ b1 e1
      have n2 := byte_low_of_and_240 _ b2 e2
      have n3 := byte_low_of_and_240 _ b3 e3
      have n4 := byte_low_of_and_240 _ b4 e4
      have n5 := byte_low_of_and_240 _ b5 e5
      have n6 := byte_low_of_and_240 _ b6 e6
      have n7 := byte_low_of_and_240 _ b7 e7
      have n8 := byte_low_of_and_240 _ b8 e8
      have hpan := read16_nibbles [80] ([d5, d6, d7, d8] ++ rest) d1 d2 d3 d4 n1 n2 n3 n4 1 rfl
      have htilt := read16_nibbles [80, d1, d2, d3, d4] rest d5 d6 d7 d8 n5 n6 n7 n8 5 rfl
      simp only [List.cons_append, List.nil_append] at hpan htilt
      rw [hd, hpan, htilt]
      rw [show (2 : Int) = JR_VISCA_MESSAGE_PAN_TILT_POSITION_INQ_RESPONSE from rfl,
        encode_response MAX hmax _ _ outFrame hout]
      obtain ⟨p0, p1, p2, p3⟩ := nibbles_of_read d1 d2 d3 d4 n1 n2 n3 n4
      obtain ⟨t0, t1, t2, t3⟩ := nibbles_of_read d5 d6 d7 d8 n5 n6 n7 n8
      rw [p0, p1, p2, p3, t0, t1, t2, t3]
      refine ⟨_, rfl, ⟨⟨arrayInit MAX [0x50, 0x00, 0x00, 0x00, 0x00, 0x00, 0x00, 0x00, 0x00],
        arrayInit MAX [0xff, 0xf0, 0xf0, 0xf0, 0xf0, 0xf0, 0xf0, 0xf0, 0xf0], 9,
        JR_VISCA_MESSAGE_PAN_TILT_POSITION_INQ_RESPONSE,
        .handlePanTiltPositionInqResponseParameters⟩, ?_, rfl, rfl⟩, Or.inr rfl, ?_⟩
      · rw [hmem]; simp [definitions]
      · simp
    · split at hdec
      · rename_i c1 c2 c3
        injection hdec with hdec
        injection hdec with hk1 hp1
        subst hk1 hp1
        obtain ⟨e0, e1, e2⟩ := c3
        rw [byte_and_255 _ b0] at e0
        rw [byte_and_255 _ b1] at e1
        rw [byte_and_255 _ b2] at e2
        subst e0 e1 e2
        rw [show (0x947 : Int) = JR_VISCA_MESSAGE_ZOOM_POSITION_INQ from rfl,
          encode_zoomInq MAX hmax _ outFrame hout]
        refine ⟨_, rfl, ⟨⟨arrayInit MAX [0x09, 0x04, 0x47], arrayInit MAX [0xff, 0xff, 0xff], 3,
          JR_VISCA_MESSAGE_ZOOM_POSITION_INQ, .NULL⟩, ?_, rfl, rfl⟩, Or.inl rfl, ?_⟩
        · rw [hmem]; simp [definitions]
        · rw [hd]; simp
      · injection hdec with hdec
        injection hdec with hk1 hp1
        exact absurd hk1.symm hk

/-- Concrete instance: capacity 16 and the payload `50 01 02 00 03 04 00 05 06`. -/
theorem encode_after_decode_witness :
    ∃ f, jr_viscaEncodeFrame 16 JR_VISCA_MESSAGE_PAN_TILT_POSITION_INQ_RESPONSE
        ⟨0x1203, 0x4056⟩ ⟨7, 7, List.replicate 16 0xaa, 0⟩ = some (0, f) ∧
      (∃ e, e ∈ tableEntries (definitions 16) ∧
        e.commandType = JR_VISCA_MESSAGE_PAN_TILT_POSITION_INQ_RESPONSE ∧
        f.dataLength = e.signatureLength) ∧
      (f.dataLength = 3 ∨ f.dataLength = 9) ∧
      f.data.take f.dataLength
        = [0x50, 1, 2, 0, 3, 4, 0, 5, 6, 0, 0, 0, 0, 0, 0, 0].take f.dataLength :=
  encode_after_decode 16 ⟨0, 1, [0x50, 1, 2, 0, 3, 4, 0, 5, 6, 0, 0, 0, 0, 0, 0, 0], 9⟩ ⟨0, 0⟩
    (fun _ => List.replicate 16 0) (by decide) (by intro i; simp) (by decide) (by decide)
    (by decide) JR_VISCA_MESSAGE_PAN_TILT_POSITION_INQ_RESPONSE ⟨0x1203, 0x4056⟩ (by decide)
    (by decide) ⟨7, 7, List.replicate 16 0xaa, 0⟩ (by decide)

/-- The comparison the decoder makes for a table entry is the spec's matching condition, on a
payload of at least nine bytes, whatever the scratch array holds. -/
theorem entry_match_long (MAX : Nat) (frame : jr_viscaFrame) (scr : List Nat)
    (hcap : frame.data.length = MAX) (hscr : scr.length = MAX)
    (hL : 9 ≤ frame.dataLength) (hL2 : frame.dataLength ≤ MAX)
    (d : jr_viscaMessageDefinition) (hd : d ∈ tableEntries (definitions MAX)) :
    d.signatureLength ≠ 0 ∧
    memcmpEq (_jr_viscaMemAnd frame.data d.signatureMask scr frame.dataLength) d.signature
      d.signatureLength = decide (signatureMatches (frame.data.take frame.dataLength) d) := by
  have hplen : 9 ≤ (frame.data.take frame.dataLength).length := by
    simp only [List.length_take]; omega
  have ht3 : (frame.data.take frame.dataLength).take 3 = frame.data.take 3 := by
    rw [List.take_take, show min 3 frame.dataLength = 3 by omega]
  have ht9 : (frame.data.take frame.dataLength).take 9 = frame.data.take 9 := by
    rw [List.take_take, show min 9 frame.dataLength = 9 by omega]
  rw [tableEntries_definitions] at hd
  simp only [definitions, List.take, List.mem_cons, List.mem_nil_iff, or_false] at hd
  rcases hd with rfl | rfl | rfl
  · refine ⟨by simp, ?_⟩
    simp only
    rw [memcmp_memAnd MAX frame.data scr [0x09, 0x06, 0x12] [0xff, 0xff, 0xff]
      frame.dataLength 3 rfl rfl (by omega) (by omega) hcap hscr]
    have e := signatureMatches_iff MAX (frame.data.take frame.dataLength) [0x09, 0x06, 0x12]
      [0xff, 0xff, 0xff] 3 JR_VISCA_MESSAGE_PAN_TILT_POSITION_INQ .NULL rfl rfl (by omega)
    rw [ht3] at e
    rw [Bool.eq_iff_iff, beq_iff_eq, decide_eq_true_iff]
    exact e.symm
  · refine ⟨by simp, ?_⟩
    simp only
    rw [memcmp_memAnd MAX frame.data scr [0x50, 0x00, 0x00, 0x00, 0x00, 0x00, 0x00, 0x00, 0x00]
      [0xff, 0xf0, 0xf0, 0xf0, 0xf0, 0xf0, 0xf0, 0xf0, 0xf0]
      frame.dataLength 9 rfl rfl (by omega) (by omega) hcap hscr]
    have e := signatureMatches_iff MAX (frame.data.take frame.dataLength)
      [0x50, 0x00, 0x00, 0x00, 0x00, 0x00, 0x00, 0x00, 0x00]
      [0xff, 0xf0, 0xf0, 0xf0, 0xf0, 0xf0, 0xf0, 0xf0, 0xf0] 9
      JR_VISCA_MESSAGE_PAN_TILT_POSITION_INQ_RESPONSE
      .handlePanTiltPositionInqResponseParameters rfl rfl (by omega)
    rw [ht9] at e
    rw [Bool.eq_iff_iff, beq_iff_eq, decide_eq_true_iff]
    exact e.symm
  · refine ⟨by simp, ?_⟩
    simp only
    rw [memcmp_memAnd MAX frame.data scr [0x09, 0x04, 0x47] [0xff, 0xff, 0xff]
      frame.dataLength 3 rfl rfl (by omega) (by omega) hcap hscr]
    have e := signatureMatches_iff MAX (frame.data.take frame.dataLength) [0x09, 0x04, 0x47]
      [0xff, 0xff, 0xff] 3 JR_VISCA_MESSAGE_ZOOM_POSITION_INQ .NULL rfl rfl (by omega)
    rw [ht3] at e
    rw [Bool.eq_iff_iff, beq_iff_eq, decide_eq_true_iff]
    exact e.symm

/-- The decoding scan over any table made of entries of `definitions` followed by an entry of
`signatureLength` 0: the first entry, in the order of that table, that matches the payload. -/
theorem decodeLoop_find (MAX : Nat) (frame : jr_viscaFrame)
    (params : jr_viscaMessageParameters) (scratch : Nat → List Nat)
    (hcap : frame.data.length = MAX) (hscr : ∀ i, (scratch i).length = MAX)
    (hL : 9 ≤ frame.dataLength) (hL2 : frame.dataLength ≤ MAX)
    (term : jr_viscaMessageDefinition) (hterm : term.signatureLength = 0)
    (rest tbl : List jr_viscaMessageDefinition)
    (htbl : ∀ d, d ∈ tbl → d ∈ tableEntries (definitions MAX)) (i : Nat) :
    decodeLoop frame params scratch (tbl ++ term :: rest) i =
      match tbl.find? (fun d => decide (signatureMatches (frame.data.take frame.dataLength) d))
        with
      | some d => some (d.commandType, (callHandler d.handleParameters frame params true).2)
      | none => some (-1, params) := by
  induction tbl generalizing i with
  | nil => simp [decodeLoop, hterm]
  | cons d ds ih =>
    obtain ⟨hnz, hm⟩ := entry_match_long MAX frame (scratch i) hcap (hscr i) hL hL2 d
      (htbl d (by simp))
    simp only [List.cons_append, decodeLoop, if_neg hnz, hm, List.find?]
    by_cases hmatch : signatureMatches (frame.data.take frame.dataLength) d
    · simp [hmatch]
    · simp only [hmatch, decide_False, Bool.false_eq_true, if_false]
      exact ih (fun e he => htbl e (by simp [he])) (i + 1)

/-- In a list where at most one element satisfies `p`, `find?` does not depend on the order. -/
theorem find?_perm_of_unique {α : Type} (p : α → Bool) (l1 l2 : List α) (hperm : l1.Perm l2)
    (huniq : ∀ x y, x ∈ l1 → y ∈ l1 → p x = true → p y = true → x = y) :
    l1.find? p = l2.find? p := by
  cases h1 : l1.find? p with
  | none =>
    rw [List.find?_eq_none] at h1
    symm
    rw [List.find?_eq_none]
    intro x hx
    exact h1 x (hperm.mem_iff.2 hx)
  | some a =>
    have ha := List.find?_some h1
    have hma := List.mem_of_find?_eq_some h1
    cases h2 : l2.find? p with
    | none =>
      rw [List.find?_eq_none] at h2
      exact absurd ha (h2 a (hperm.mem_iff.1 hma))
    | some b =>
      have hb := List.find?_some h2
      have hmb := List.mem_of_find?_eq_some h2
      rw [huniq a b hma (hperm.mem_iff.2 hmb) ha hb]

/-- At most one entry of the table matches a payload of at least nine bytes. -/
theorem match_unique (MAX : Nat) (payload : List Nat) (hp : 9 ≤ payload.length)
    (e1 e2 : jr_viscaMessageDefinition) (h1 : e1 ∈ tableEntries (definitions MAX))
    (h2 : e2 ∈ tableEntries (definitions MAX)) (m1 : signatureMatches payload e1)
    (m2 : signatureMatches payload e2) : e1 = e2 := by
  obtain ⟨d0, d1, d2, d3, d4, d5, d6, d7, d8, rest, hd⟩ := exists_nine payload hp
  have i1 := signatureMatches_iff MAX payload [0x09, 0x06, 0x12] [0xff, 0xff, 0xff] 3
    JR_VISCA_MESSAGE_PAN_TILT_POSITION_INQ .NULL rfl rfl (by omega)
  have i2 := signatureMatches_iff MAX payload
    [0x50, 0x00, 0x00, 0x00, 0x00, 0x00, 0x00, 0x00, 0x00]
    [0xff, 0xf0, 0xf0, 0xf0, 0xf0, 0xf0, 0xf0, 0xf0, 0xf0] 9
    JR_VISCA_MESSAGE_PAN_TILT_POSITION_INQ_RESPONSE .handlePanTiltPositionInqResponseParameters
    rfl rfl (by omega)
  have i3 := signatureMatches_iff MAX payload [0x09, 0x04, 0x47] [0xff, 0xff, 0xff] 3
    JR_VISCA_MESSAGE_ZOOM_POSITION_INQ .NULL rfl rfl (by omega)
  rw [hd] at i1 i2 i3
  simp only [List.take, List.zipWith, List.cons.injEq, and_true] at i1 i2 i3
  rw [← hd] at i1 i2 i3
  rw [tableEntries_definitions] at h1 h2
  simp only [definitions, List.take, List.mem_cons, List.mem_nil_iff, or_false] at h1 h2
  rcases h1 with rfl | rfl | rfl <;> rcases h2 with rfl | rfl | rfl
  · rfl
  · have a := i1.1 m1
    have b := i2.1 m2
    omega
  · have a := i1.1 m1
    have b := i3.1 m2
    omega
  · have a := i2.1 m1
    have b := i1.1 m2
    omega
  · rfl
  · have a := i2.1 m1
    have b := i3.1 m2
    omega
  · have a := i3.1 m1
    have b := i1.1 m2
    omega
  · have a := i3.1 m1
    have b := i2.1 m2
    omega
  · rfl

/-- Each kind is the `commandType` of at most one entry of the table. -/
theorem kind_unique (MAX : Nat) (e1 e2 : jr_viscaMessageDefinition)
    (h1 : e1 ∈ tableEntries (definitions MAX)) (h2 : e2 ∈ tableEntries (definitions MAX))
    (hk : e1.commandType = e2.commandType) : e1 = e2 := by
  rw [tableEntries_definitions] at h1 h2
  simp only [definitions, List.take, List.mem_cons, List.mem_nil_iff, or_false] at h1 h2
  rcases h1 with rfl | rfl | rfl <;> rcases h2 with rfl | rfl | rfl <;>
    first
    | rfl
    | (exfalso
       simp [JR_VISCA_MESSAGE_PAN_TILT_POSITION_INQ,
         JR_VISCA_MESSAGE_PAN_TILT_POSITION_INQ_RESPONSE,
         JR_VISCA_MESSAGE_ZOOM_POSITION_INQ] at hk)

theorem definitions_split (MAX : Nat) :
    definitions MAX = tableEntries (definitions MAX) ++
      (⟨arrayInit MAX [], arrayInit MAX [], 0, 0, .NULL⟩ : jr_viscaMessageDefinition) :: [] := by
  rw [tableEntries_definitions]
  rfl

/-- Claim C14. For a payload of length `L` with `9 ≤ L ≤ JR_VISCA_MAX_FRAME_DATA_LENGTH`, at
most one of the three non-terminating entries matches it under its mask, and each kind is the
`commandType` of at most one entry. So the scan of `jr_viscaDecodeFrame` over any permutation
of the three entries, followed by the terminator, returns what `jr_viscaDecodeFrame` returns;
any entry that matches decides the kind, and a payload matching a three-byte inquiry entry
never resolves to `JR_VISCA_MESSAGE_PAN_TILT_POSITION_INQ_RESPONSE`. -/
theorem decode_order_independent (MAX : Nat) (frame : jr_viscaFrame)
    (params : jr_viscaMessageParameters) (scratch scratch2 : Nat → List Nat)
    (hcap : frame.data.length = MAX) (hscr : ∀ i, (scratch i).length = MAX)
    (hscr2 : ∀ i, (scratch2 i).length = MAX)
    (hL : 9 ≤ frame.dataLength) (hL2 : frame.dataLength ≤ MAX)
    (tbl : List jr_viscaMessageDefinition)
    (hperm : tbl.Perm (tableEntries (definitions MAX))) :
    (∀ e1 e2, e1 ∈ tableEntries (definitions MAX) → e2 ∈ tableEntries (definitions MAX) →
      signatureMatches (frame.data.take frame.dataLength) e1 →
      signatureMatches (frame.data.take frame.dataLength) e2 → e1 = e2) ∧
    (∀ e1 e2, e1 ∈ tableEntries (definitions MAX) → e2 ∈ tableEntries (definitions MAX) →
      e1.commandType = e2.commandType → e1 = e2) ∧
    decodeLoop frame params scratch2 (tbl ++ (definitions MAX).drop 3) 0
      = jr_viscaDecodeFrame MAX frame params scratch ∧
    (∀ e, e ∈ tableEntries (definitions MAX) →
      signatureMatches (frame.data.take frame.dataLength) e →
      ∃ q, decodeLoop frame params scratch2 (tbl ++ (definitions MAX).drop 3) 0
        = some (e.commandType, q)) ∧
    (∀ e, e ∈ tableEntries (definitions MAX) → e.signatureLength = 3 →
      signatureMatches (frame.data.take frame.dataLength) e →
      ∀ q, decodeLoop frame params scratch2 (tbl ++ (definitions MAX).drop 3) 0
        ≠ some (JR_VISCA_MESSAGE_PAN_TILT_POSITION_INQ_RESPONSE, q)) := by
  have hplen : 9 ≤ (frame.data.take frame.dataLength).length := by
    simp only [List.length_take]; omega
  have huniq := match_unique MAX (frame.data.take frame.dataLength) hplen
  have hdrop : (definitions MAX).drop 3
      = (⟨arrayInit MAX [], arrayInit MAX [], 0, 0, .NULL⟩ : jr_viscaMessageDefinition)
        :: [] := rfl
  have hperm_loop := decodeLoop_find MAX frame params scratch2 hcap hscr2 hL hL2
    ⟨arrayInit MAX [], arrayInit MAX [], 0, 0, .NULL⟩ rfl [] tbl
    (fun d hd => hperm.mem_iff.1 hd) 0
  have hcode_loop := decodeLoop_find MAX frame params scratch hcap hscr hL hL2
    ⟨arrayInit MAX [], arrayInit MAX [], 0, 0, .NULL⟩ rfl [] (tableEntries (definitions MAX))
    (fun d hd => hd) 0
  rw [← definitions_split] at hcode_loop
  have hfind := find?_perm_of_unique
    (fun d => decide (signatureMatches (frame.data.take frame.dataLength) d)) tbl
    (tableEntries (definitions MAX)) hperm
    (by
      intro x y hx hy px py
      exact huniq x y (hperm.mem_iff.1 hx) (hperm.mem_iff.1 hy) (of_decide_eq_true px)
        (of_decide_eq_true py))
  have hany : ∀ e, e ∈ tableEntries (definitions MAX) →
      signatureMatches (frame.data.take frame.dataLength) e →
      decodeLoop frame params scratch2 (tbl ++ (definitions MAX).drop 3) 0
        = some (e.commandType, (callHandler e.handleParameters frame params true).2) := by
    intro e he hm
    rw [hdrop, hperm_loop]
    cases hf : tbl.find?
        (fun d => decide (signatureMatches (frame.data.take frame.dataLength) d)) with
    | none =>
      rw [List.find?_eq_none] at hf
      exact absurd (decide_eq_true hm) (hf e (hperm.mem_iff.2 he))
    | some a =>
      have ha0 : decide (signatureMatches (frame.data.take frame.dataLength) a) = true :=
        @List.find?_some _
          (fun d => decide (signatureMatches (frame.data.take frame.dataLength) d)) a tbl hf
      have ha := of_decide_eq_true ha0
      have hma := hperm.mem_iff.1 (List.mem_of_find?_eq_some hf)
      rw [huniq a e hma he ha hm]
  refine ⟨huniq, kind_unique MAX, ?_, ?_, ?_⟩
  · unfold jr_viscaDecodeFrame
    rw [hdrop, hperm_loop, hcode_loop, hfind]
  · intro e he hm
    exact ⟨_, hany e he hm⟩
  · intro e he h3 hm q hq
    rw [hany e he hm] at hq
    injection hq with hq
    injection hq with hk _
    rw [tableEntries_definitions] at he
    simp only [definitions, List.take, List.mem_cons, List.mem_nil_iff, or_false] at he
    rcases he with rfl | rfl | rfl
    · simp [JR_VISCA_MESSAGE_PAN_TILT_POSITION_INQ,
        JR_VISCA_MESSAGE_PAN_TILT_POSITION_INQ_RESPONSE] at hk
    · simp at h3
    · simp [JR_VISCA_MESSAGE_ZOOM_POSITION_INQ,
        JR_VISCA_MESSAGE_PAN_TILT_POSITION_INQ_RESPONSE] at hk

/-- Concrete instance: capacity 16, the payload `09 04 47` followed by six bytes, and the
table scanned in reverse order. -/
theorem decode_order_independent_witness :
    decodeLoop ⟨0, 1, [0x09, 0x04, 0x47, 1, 2, 3, 4, 5, 6, 0, 0, 0, 0, 0, 0, 0], 9⟩ ⟨0, 0⟩
        (fun _ => List.replicate 16 0x12)
        ((tableEntries (definitions 16)).reverse ++ (definitions 16).drop 3) 0
      = jr_viscaDecodeFrame 16
        ⟨0, 1, [0x09, 0x04, 0x47, 1, 2, 3, 4, 5, 6, 0, 0, 0, 0, 0, 0, 0], 9⟩ ⟨0, 0⟩
        (fun _ => List.replicate 16 0) :=
  (decode_order_independent 16
    ⟨0, 1, [0x09, 0x04, 0x47, 1, 2, 3, 4, 5, 6, 0, 0, 0, 0, 0, 0, 0], 9⟩ ⟨0, 0⟩
    (fun _ => List.replicate 16 0) (fun _ => List.replicate 16 0x12) (by decide)
    (by intro i; simp) (by intro i; simp) (by decide) (by decide)
    (tableEntries (definitions 16)).reverse (List.reverse_perm _)).2.2.1

/-- Claim C20, evaluated on the code. The frame extracted from `81 09 06 ff` has the two-byte
payload `09 06`; `jr_viscaDecodeFrame` ands two bytes into `maskedFrame` and compares three.
When the third byte of the uninitialised `maskedFrame` is `0x12` the frame is classified as
`JR_VISCA_MESSAGE_PAN_TILT_POSITION_INQ`, whose signature has three bytes; when it is `0` the
result is `-1`. Likewise the one-byte payload `50`, with zeros in `maskedFrame`, is classified
as `JR_VISCA_MESSAGE_PAN_TILT_POSITION_INQ_RESPONSE` and the parameters are read from the
bytes `01 02 00 03 04 00 05 06` that lie beyond the payload in `frame.data`. -/
theorem truncated_payload_misclassified :
    (jr_viscaDataToFrame 16 [0x81, 0x09, 0x06, 0xff] ⟨0, 0, List.replicate 16 0xaa, 0⟩).2
      = ⟨0, 1, [0x09, 0x06, 0xaa, 0xaa, 0xaa, 0xaa, 0xaa, 0xaa, 0xaa, 0xaa, 0xaa, 0xaa, 0xaa,
          0xaa, 0xaa, 0xaa], 2⟩ ∧
    jr_viscaDecodeFrame 16
        (jr_viscaDataToFrame 16 [0x81, 0x09, 0x06, 0xff] ⟨0, 0, List.replicate 16 0xaa, 0⟩).2
        ⟨0, 0⟩ (fun _ => [0x09, 0x06, 0x12, 0, 0, 0, 0, 0, 0, 0, 0, 0, 0, 0, 0, 0])
      = some (JR_VISCA_MESSAGE_PAN_TILT_POSITION_INQ, ⟨0, 0⟩) ∧
    jr_viscaDecodeFrame 16
        (jr_viscaDataToFrame 16 [0x81, 0x09, 0x06, 0xff] ⟨0, 0, List.replicate 16 0xaa, 0⟩).2
        ⟨0, 0⟩ (fun _ => List.replicate 16 0)
      = some (-1, ⟨0, 0⟩) ∧
    jr_viscaDecodeFrame 16
        ⟨0, 1, [0x50, 1, 2, 0, 3, 4, 0, 5, 6, 0, 0, 0, 0, 0, 0, 0], 1⟩
        ⟨0, 0⟩ (fun _ => List.replicate 16 0)
      = some (JR_VISCA_MESSAGE_PAN_TILT_POSITION_INQ_RESPONSE, ⟨0x1203, 0x4056⟩) := by
  refine ⟨by decide, by decide, by decide, by decide⟩

end JrVisca
